import Mathlib

set_option maxRecDepth 400000

/-!
Verification of the kube-router network policy controller
(`pkg/controllers/netpol/network_policy_controller.go`).

The Go code is shallowly embedded: pure helpers become Lean functions,
iptables/ipset state becomes an explicit `KernelState`, fallible kernel
calls become `Except`/`Option`, and Go byte strings become `List Nat`
(one `Nat < 256` per byte).
-/

namespace Netpol

/-! ### Character-list string helpers

`strings.HasPrefix`, `strings.HasSuffix` and `strings.Contains` from the
Go standard library, modelled over `List Char`. -/

def hasPrefixL : List Char → List Char → Bool
  | [], _ => true
  | _ :: _, [] => false
  | a :: as, b :: bs => a = b && hasPrefixL as bs

def containsL (p : List Char) : List Char → Bool
  | [] => hasPrefixL p []
  | c :: rest => hasPrefixL p (c :: rest) || containsL p rest

def strHasPrefix (p s : String) : Bool := hasPrefixL p.data s.data

def strHasSuffix (suf s : String) : Bool := hasPrefixL suf.data.reverse s.data.reverse

def strContains (s sub : String) : Bool := containsL sub.data s.data

/-! ### UTF-8 encoding of a Go string (`[]byte(s)`) -/

def utf8EncodeCharBytes (c : Char) : List Nat :=
  let n := c.toNat
  if n < 128 then [n]
  else if n < 2048 then [192 ||| (n >>> 6), 128 ||| (n &&& 63)]
  else if n < 65536 then
    [224 ||| (n >>> 12), 128 ||| ((n >>> 6) &&& 63), 128 ||| (n &&& 63)]
  else
    [240 ||| (n >>> 18), 128 ||| ((n >>> 12) &&& 63),
     128 ||| ((n >>> 6) &&& 63), 128 ||| (n &&& 63)]

def strBytes (s : String) : List Nat := s.data.flatMap utf8EncodeCharBytes

/-! ### SHA-256 (`crypto/sha256`) over byte lists -/

def w32 (n : Nat) : Nat := n % 4294967296

def rotr32 (x k : Nat) : Nat := w32 ((x >>> k) ||| (x <<< (32 - k)))

def bigSigma0 (x : Nat) : Nat := (rotr32 x 2) ^^^ (rotr32 x 13) ^^^ (rotr32 x 22)

def bigSigma1 (x : Nat) : Nat := (rotr32 x 6) ^^^ (rotr32 x 11) ^^^ (rotr32 x 25)

def smallSigma0 (x : Nat) : Nat := (rotr32 x 7) ^^^ (rotr32 x 18) ^^^ (x >>> 3)

def smallSigma1 (x : Nat) : Nat := (rotr32 x 17) ^^^ (rotr32 x 19) ^^^ (x >>> 10)

def chF (x y z : Nat) : Nat := (x &&& y) ^^^ ((x ^^^ 4294967295) &&& z)

def majF (x y z : Nat) : Nat := (x &&& y) ^^^ (x &&& z) ^^^ (y &&& z)

def sha256K : List Nat :=
  [1116352408, 1899447441, 3049323471, 3921009573, 961987163, 1508970993,
   2453635748, 2870763221, 3624381080, 310598401, 607225278, 1426881987,
   1925078388, 2162078206, 2614888103, 3248222580, 3835390401, 4022224774,
   264347078, 604807628, 770255983, 1249150122, 1555081692, 1996064986,
   2554220882, 2821834349, 2952996808, 3210313671, 3336571891, 3584528711,
   113926993, 338241895, 666307205, 773529912, 1294757372, 1396182291,
   1695183700, 1986661051, 2177026350, 2456956037, 2730485921, 2820302411,
   3259730800, 3345764771, 3516065817, 3600352804, 4094571909, 275423344,
   430227734, 506948616, 659060556, 883997877, 958139571, 1322822218,
   1537002063, 1747873779, 1955562222, 2024104815, 2227730452, 2361852424,
   2428436474, 2756734187, 3204031479, 3329325298]

structure Sha256Regs where
  a : Nat
  b : Nat
  c : Nat
  d : Nat
  e : Nat
  f : Nat
  g : Nat
  h : Nat
deriving DecidableEq, Repr

def sha256H0 : Sha256Regs :=
  ⟨1779033703, 3144134277, 1013904242, 2773480762, 1359893119, 2600822924, 528734635, 1541459225⟩

def compressStep (r : Sha256Regs) (kw : Nat × Nat) : Sha256Regs :=
  let t1 := w32 (r.h + bigSigma1 r.e + chF r.e r.f r.g + kw.1 + kw.2)
  let t2 := w32 (bigSigma0 r.a + majF r.a r.b r.c)
  ⟨w32 (t1 + t2), r.a, r.b, r.c, w32 (r.d + t1), r.e, r.f, r.g⟩

def bytesToWords : List Nat → List Nat
  | b0 :: b1 :: b2 :: b3 :: rest =>
    (b0 * 16777216 + b1 * 65536 + b2 * 256 + b3) :: bytesToWords rest
  | _ => []

def extendSchedule : Nat → List Nat → List Nat
  | 0, ws => ws
  | n + 1, ws =>
    let t := ws.length
    let nw := w32 (smallSigma1 (ws.getD (t - 2) 0) + ws.getD (t - 7) 0 +
                   smallSigma0 (ws.getD (t - 15) 0) + ws.getD (t - 16) 0)
    extendSchedule n (ws ++ [nw])

def processChunk (hs : Sha256Regs) (chunk : List Nat) : Sha256Regs :=
  let ws := extendSchedule 48 (bytesToWords chunk)
  let r := (sha256K.zip ws).foldl compressStep hs
  ⟨w32 (hs.a + r.a), w32 (hs.b + r.b), w32 (hs.c + r.c), w32 (hs.d + r.d),
   w32 (hs.e + r.e), w32 (hs.f + r.f), w32 (hs.g + r.g), w32 (hs.h + r.h)⟩

def toBytesBE32 (w : Nat) : List Nat :=
  [w / 16777216 % 256, w / 65536 % 256, w / 256 % 256, w % 256]

def toBytesBE64 (w : Nat) : List Nat :=
  [w / 2 ^ 56 % 256, w / 2 ^ 48 % 256, w / 2 ^ 40 % 256, w / 2 ^ 32 % 256,
   w / 2 ^ 24 % 256, w / 2 ^ 16 % 256, w / 2 ^ 8 % 256, w % 256]

def sha256Pad (msg : List Nat) : List Nat :=
  let len := msg.length
  msg ++ [128] ++ List.replicate ((119 - len % 64) % 64) 0 ++ toBytesBE64 (len * 8)

def sha256Blocks : Nat → Sha256Regs → List Nat → Sha256Regs
  | 0, hs, _ => hs
  | n + 1, hs, l => sha256Blocks n (processChunk hs (l.take 64)) (l.drop 64)

def sha256Bytes (msg : List Nat) : List Nat :=
  let padded := sha256Pad msg
  let r := sha256Blocks (padded.length / 64) sha256H0 padded
  toBytesBE32 r.a ++ toBytesBE32 r.b ++ toBytesBE32 r.c ++ toBytesBE32 r.d ++
  toBytesBE32 r.e ++ toBytesBE32 r.f ++ toBytesBE32 r.g ++ toBytesBE32 r.h

/-! ### Base32 standard encoding with padding (`encoding/base32.StdEncoding`) -/

def base32Alphabet : List Char := "ABCDEFGHIJKLMNOPQRSTUVWXYZ234567".data

def b32DataChars : Nat → Nat
  | 1 => 2
  | 2 => 4
  | 3 => 5
  | 4 => 7
  | _ => 8

def encGroup (g : List Nat) : List Char :=
  let padded := g ++ List.replicate (5 - g.length) 0
  let n := padded.foldl (fun acc b => acc * 256 + b % 256) 0
  let c := b32DataChars g.length
  (List.range 8).map fun i =>
    if i < c then base32Alphabet.getD ((n >>> (35 - 5 * i)) % 32) 'A' else '='

def base32Encode : List Nat → List Char
  | [] => []
  | b0 :: b1 :: b2 :: b3 :: b4 :: rest =>
    encGroup [b0, b1, b2, b3, b4] ++ base32Encode rest
  | l => encGroup l

/-! ### Reserved name prefixes and the name-derivation functions -/

def kubePodFirewallChainPrefix : String := "KUBE-POD-FW-"
def kubeNetworkPolicyChainPrefix : String := "KUBE-NWPLCY-"
def kubeSourceIpSetPrefix : String := "KUBE-SRC-"
def kubeDestinationIpSetPrefix : String := "KUBE-DST-"

def hashedSuffix (input : String) : String :=
  String.mk ((base32Encode (sha256Bytes (strBytes input))).take 16)

def podFirewallChainName (ns podName version : String) : String :=
  kubePodFirewallChainPrefix ++ hashedSuffix (ns ++ podName ++ version)

def networkPolicyChainName (ns policyName version : String) : String :=
  kubeNetworkPolicyChainPrefix ++ hashedSuffix (ns ++ policyName ++ version)

def policySourcePodIpSetName (ns policyName : String) : String :=
  kubeSourceIpSetPrefix ++ hashedSuffix (ns ++ policyName)

def policyDestinationPodIpSetName (ns policyName : String) : String :=
  kubeDestinationIpSetPrefix ++ hashedSuffix (ns ++ policyName)

def policyIndexedSourcePodIpSetName (ns policyName : String) (ingressRuleNo : Nat) : String :=
  kubeSourceIpSetPrefix ++ hashedSuffix (ns ++ policyName ++ "ingressrule" ++ toString ingressRuleNo ++ "pod")

def policyIndexedDestinationPodIpSetName (ns policyName : String) (egressRuleNo : Nat) : String :=
  kubeDestinationIpSetPrefix ++ hashedSuffix (ns ++ policyName ++ "egressrule" ++ toString egressRuleNo ++ "pod")

def policyIndexedSourceIpBlockIpSetName (ns policyName : String) (ingressRuleNo : Nat) : String :=
  kubeSourceIpSetPrefix ++ hashedSuffix (ns ++ policyName ++ "ingressrule" ++ toString ingressRuleNo ++ "ipblock")

def policyIndexedDestinationIpBlockIpSetName (ns policyName : String) (egressRuleNo : Nat) : String :=
  kubeDestinationIpSetPrefix ++ hashedSuffix (ns ++ policyName ++ "egressrule" ++ toString egressRuleNo ++ "ipblock")

def policyIndexedIngressNamedPortIpSetName (ns policyName : String) (ingressRuleNo namedPortNo : Nat) : String :=
  kubeDestinationIpSetPrefix ++ hashedSuffix (ns ++ policyName ++ "ingressrule" ++ toString ingressRuleNo ++ toString namedPortNo ++ "namedport")

def policyIndexedEgressNamedPortIpSetName (ns policyName : String) (egressRuleNo namedPortNo : Nat) : String :=
  kubeDestinationIpSetPrefix ++ hashedSuffix (ns ++ policyName ++ "egressrule" ++ toString egressRuleNo ++ toString namedPortNo ++ "namedport")

/-! ### Internal data model (`networkPolicyInfo`, `podInfo`, rule structures)

`labels.Selector` values are modelled as evaluated predicates on pods or
namespaces; the stored `podSelector` of `networkPolicyInfo` is never read
after model building, so it is omitted from the Lean structure. -/

structure PodInfo where
  ip : String
  name : String
  ns : String
  labels : List (String × String)
deriving DecidableEq, Repr

structure ProtocolAndPort where
  protocol : String
  port : String
deriving DecidableEq, Repr

structure EndPoints where
  ips : List String
  protocol : String
  port : String
deriving DecidableEq, Repr

structure IngressRuleData where
  matchAllPorts : Bool
  ports : List ProtocolAndPort
  namedPorts : List EndPoints
  matchAllSource : Bool
  srcPods : List PodInfo
  srcIPBlocks : List (List String)
deriving DecidableEq, Repr

structure EgressRuleData where
  matchAllPorts : Bool
  ports : List ProtocolAndPort
  namedPorts : List EndPoints
  matchAllDestinations : Bool
  dstPods : List PodInfo
  dstIPBlocks : List (List String)
deriving DecidableEq, Repr

/-- `ingressRules = none` models a nil Go slice (`Spec.Ingress == nil`),
`some []` a non-nil empty slice; `targetPods` is the assoc list backing the
Go `map[string]podInfo` keyed by pod IP. -/
structure NetworkPolicyInfo where
  name : String
  ns : String
  targetPods : List (String × PodInfo)
  ingressRules : Option (List IngressRuleData)
  egressRules : Option (List EgressRuleData)
  policyType : String
deriving DecidableEq, Repr

/-- Insert into an assoc list keyed by the first component, replacing an
existing binding (Go map assignment). -/
def assocPut {α : Type} (l : List (String × α)) (k : String) (v : α) : List (String × α) :=
  if l.any (fun e => e.1 == k) then
    l.map (fun e => if e.1 == k then (k, v) else e)
  else l ++ [(k, v)]

/-! ### Kernel state: `filter`-table chains and ipsets

A rule is its iptables argument token list.  Each chain stores its rules in
order; each ipset stores its member rows (a row is the member plus its
options, exactly the rows handed to `Refresh`/`RefreshWithBuiltinOptions`). -/

abbrev Rule := List String

structure KernelState where
  filterChains : List (String × List Rule)
  ipsets : List (String × List (List String))
deriving DecidableEq, Repr

def findChain? (st : KernelState) (c : String) : Option (List Rule) :=
  (st.filterChains.find? (fun e => e.1 == c)).map (·.2)

def setChainRules (st : KernelState) (c : String) (rs : List Rule) : KernelState :=
  { st with filterChains := st.filterChains.map (fun e => if e.1 == c then (e.1, rs) else e) }

def chainNames (st : KernelState) : List String := st.filterChains.map (·.1)

def ipsetNames (st : KernelState) : List String := st.ipsets.map (·.1)

/-- `NewChain`: creates if absent; an "already exists" outcome is success. -/
def newChain (st : KernelState) (c : String) : KernelState :=
  if (findChain? st c).isSome then st
  else { st with filterChains := st.filterChains ++ [(c, [])] }

/-- `Exists`: whether an identical rule is present in the chain. -/
def existsRule (st : KernelState) (c : String) (r : Rule) : Bool :=
  match findChain? st c with
  | some rs => rs.contains r
  | none => false

def insertIdxRule : Nat → Rule → List Rule → List Rule
  | 0, r, rs => r :: rs
  | _ + 1, r, [] => [r]
  | n + 1, r, x :: rs => x :: insertIdxRule n r rs

/-- `Insert(table, chain, pos, rule)` at a 1-based position. -/
def insertRuleAt (st : KernelState) (c : String) (pos : Nat) (r : Rule) : KernelState :=
  match findChain? st c with
  | some rs => setChainRules st c (insertIdxRule (pos - 1) r rs)
  | none => st

/-- The reconciler's existence-check + insert-at-1 idiom. -/
def ensureRuleFirst (st : KernelState) (c : String) (r : Rule) : KernelState :=
  if existsRule st c r then st else insertRuleAt st c 1 r

/-- `AppendUnique`: appends if no identical rule exists. -/
def appendUnique (st : KernelState) (c : String) (r : Rule) : KernelState :=
  match findChain? st c with
  | some rs => if rs.contains r then st else setChainRules st c (rs ++ [r])
  | none => st

def builtinChains : List String := ["FORWARD", "OUTPUT", "INPUT"]

/-- The header line that `iptables -S` style listing places before the
rules: a policy line for a built-in chain, a `-N` line for a user chain.
Rule numbers used by delete-by-number are therefore exactly the indices
into this listing. -/
def chainHeader (c : String) : Rule :=
  if builtinChains.contains c then ["-P", c, "ACCEPT"] else ["-N", c]

/-- `List(table, chain)`: header line followed by the rules. -/
def listRules (st : KernelState) (c : String) : Option (List Rule) :=
  (findChain? st c).map (fun rs => chainHeader c :: rs)

/-- `Delete(table, chain, strconv.Itoa n)`: delete the rule with 1-based
number `n`; fails for number 0 or a number beyond the chain. -/
def deleteRuleNum (st : KernelState) (c : String) (n : Nat) : Option KernelState :=
  match findChain? st c with
  | none => none
  | some rs => if 1 ≤ n ∧ n - 1 < rs.length then some (setChainRules st c (rs.eraseIdx (n - 1))) else none

/-- `ClearChain`: flushes the chain, creating it when absent. -/
def clearChain (st : KernelState) (c : String) : KernelState :=
  if (findChain? st c).isSome then setChainRules st c []
  else { st with filterChains := st.filterChains ++ [(c, [])] }

/-- `DeleteChain`: fails when the chain is absent or still has rules. -/
def deleteChain (st : KernelState) (c : String) : Option KernelState :=
  match findChain? st c with
  | none => none
  | some rs =>
    if rs = [] then some { st with filterChains := st.filterChains.filter (fun e => !(e.1 == c)) }
    else none

/-! ### Ipset driver with a failure environment

`createFails`/`refreshFails` say which ipset commands fail with a
transient error.  A failing refresh is only logged by the controller, so
it leaves the set's contents unchanged. -/

structure IpsetEnv where
  createFails : String → Bool
  refreshFails : String → Bool

def noFailEnv : IpsetEnv := ⟨fun _ => false, fun _ => false⟩

def ipsetCreate (env : IpsetEnv) (st : KernelState) (name : String) : Except String KernelState :=
  if env.createFails name then .error ("failed to create ipset: " ++ name)
  else if st.ipsets.any (fun e => e.1 == name) then .ok st
  else .ok { st with ipsets := st.ipsets ++ [(name, [])] }

def ipsetRefresh (env : IpsetEnv) (st : KernelState) (name : String) (rows : List (List String)) : KernelState :=
  if env.refreshFails name then st
  else { st with ipsets := st.ipsets.map (fun e => if e.1 == name then (name, rows) else e) }

def ipsetDestroy (st : KernelState) (name : String) : Option KernelState :=
  if st.ipsets.any (fun e => e.1 == name) then
    some { st with ipsets := st.ipsets.filter (fun e => !(e.1 == name)) }
  else none

/-- Refresh rows for a plain pod-IP set: `Refresh(ips, OptionTimeout, "0")`. -/
def ipRows (ips : List String) : List (List String) :=
  ips.map (fun ip => [ip, "timeout", "0"])

/-! ### Rule materialization (`appendRuleToPolicyChain`, `processIngressRules`, `processEgressRules`) -/

/-- The argument list built by `appendRuleToPolicyChain`. -/
def ruleArgs (comment srcIpSetName dstIpSetName protocol dPort : String) : Rule :=
  (if comment = "" then [] else ["-m", "comment", "--comment", comment]) ++
  (if srcIpSetName = "" then [] else ["-m", "set", "--match-set", srcIpSetName, "src"]) ++
  (if dstIpSetName = "" then [] else ["-m", "set", "--match-set", dstIpSetName, "dst"]) ++
  (if protocol = "" then [] else ["-p", protocol]) ++
  (if dPort = "" then [] else ["--dport", dPort]) ++
  ["-j", "ACCEPT"]

/-- `appendRuleToPolicyChain`: build the args and `AppendUnique` them into
the policy chain; the emitted rule is also returned. -/
def emitRule (st : KernelState) (chain comment src dst protocol dPort : String) :
    KernelState × Rule :=
  let r := ruleArgs comment src dst protocol dPort
  (appendUnique st chain r, r)

/-- One `appendRuleToPolicyChain` call per numeric port entry. -/
def emitPortRules (chain comment src dst : String) :
    List ProtocolAndPort → KernelState → KernelState × List Rule
  | [], st => (st, [])
  | pp :: rest, st =>
    let (st, r) := emitRule st chain comment src dst pp.protocol pp.port
    let (st, es) := emitPortRules chain comment src dst rest st
    (st, r :: es)

def ingressComment1 (p : NetworkPolicyInfo) : String :=
  "rule to ACCEPT traffic from source pods to dest pods selected by policy name " ++
    p.name ++ " namespace " ++ p.ns

def ingressComment2 (p : NetworkPolicyInfo) : String :=
  "rule to ACCEPT traffic from all sources to dest pods selected by policy name: " ++
    p.name ++ " namespace " ++ p.ns

def ingressComment3 (p : NetworkPolicyInfo) : String :=
  "rule to ACCEPT traffic from specified ipBlocks to dest pods selected by policy name: " ++
    p.name ++ " namespace " ++ p.ns

def egressComment1 (p : NetworkPolicyInfo) : String :=
  "rule to ACCEPT traffic from source pods to dest pods selected by policy name " ++
    p.name ++ " namespace " ++ p.ns

def egressComment2 (p : NetworkPolicyInfo) : String :=
  "rule to ACCEPT traffic from source pods to all destinations selected by policy name: " ++
    p.name ++ " namespace " ++ p.ns

def egressComment3 (p : NetworkPolicyInfo) : String :=
  "rule to ACCEPT traffic from source pods to specified ipBlocks selected by policy name: " ++
    p.name ++ " namespace " ++ p.ns

/-- The named-port inner loop of the ingress branches: create the indexed
named-port set, record it active, refresh it with the endpoint addresses,
and append one rule using it as the destination match. -/
def emitIngressNamedPortRules (env : IpsetEnv) (ns polName : String) (i : Nat)
    (chain comment src : String) :
    Nat → List EndPoints → KernelState → Except String (KernelState × List Rule × List String)
  | _, [], st => .ok (st, [], [])
  | j, ep :: rest, st => do
    let namedSet := policyIndexedIngressNamedPortIpSetName ns polName i j
    let st ← ipsetCreate env st namedSet
    let st := ipsetRefresh env st namedSet (ipRows ep.ips)
    let (st, r) := emitRule st chain comment src namedSet ep.protocol ep.port
    let (st, es, ss) ← emitIngressNamedPortRules env ns polName i chain comment src (j + 1) rest st
    .ok (st, r :: es, namedSet :: ss)

/-- `processIngressRules` branch: sources resolved to peer pods
(`len(ingressRule.srcPods) != 0`). -/
def ingressPodsBranch (env : IpsetEnv) (p : NetworkPolicyInfo) (chain tgtDst : String)
    (i : Nat) (r : IngressRuleData) (st : KernelState) :
    Except String (KernelState × List Rule × List String) :=
  if r.srcPods.isEmpty then .ok (st, [], [])
  else do
    let srcSet := policyIndexedSourcePodIpSetName p.ns p.name i
    let st ← ipsetCreate env st srcSet
    let st := ipsetRefresh env st srcSet (ipRows (r.srcPods.map (·.ip)))
    let (st, ePorts) := emitPortRules chain (ingressComment1 p) srcSet tgtDst r.ports st
    let (st, eNamed, sNamed) ←
      emitIngressNamedPortRules env p.ns p.name i chain (ingressComment1 p) srcSet 0 r.namedPorts st
    let (st, eNone) :=
      if r.ports.isEmpty && r.namedPorts.isEmpty then
        let (st, r0) := emitRule st chain (ingressComment1 p) srcSet tgtDst "" ""
        (st, [r0])
      else (st, [])
    .ok (st, ePorts ++ eNamed ++ eNone, srcSet :: sNamed)

/-- `processIngressRules` branch: match-all sources with specific ports
(numeric-port rules and named-port rules, no source-set match). -/
def ingressMatchAllBranch (env : IpsetEnv) (p : NetworkPolicyInfo) (chain tgtDst : String)
    (i : Nat) (r : IngressRuleData) (st : KernelState) :
    Except String (KernelState × List Rule × List String) :=
  if r.matchAllSource && !r.matchAllPorts then do
    let (st, ePorts) := emitPortRules chain (ingressComment2 p) "" tgtDst r.ports st
    let (st, eNamed, sNamed) ←
      emitIngressNamedPortRules env p.ns p.name i chain (ingressComment2 p) "" 0 r.namedPorts st
    .ok (st, ePorts ++ eNamed, sNamed)
  else .ok (st, [], [])

/-- `processIngressRules` branch: match-all sources and all ports. -/
def ingressMatchAllAllBranch (p : NetworkPolicyInfo) (chain tgtDst : String)
    (r : IngressRuleData) (st : KernelState) : KernelState × List Rule :=
  if r.matchAllSource && r.matchAllPorts then
    let (st, r0) := emitRule st chain (ingressComment2 p) "" tgtDst "" ""
    (st, [r0])
  else (st, [])

/-- Port rules of the ingress CIDR-blocks branch when the rule does not
match all ports. -/
def ingressIpBlockPorts (env : IpsetEnv) (p : NetworkPolicyInfo) (chain tgtDst : String)
    (i : Nat) (cidrSet : String) (r : IngressRuleData) (st : KernelState) :
    Except String (KernelState × List Rule × List String) :=
  if !r.matchAllPorts then do
    let (st, ePorts) := emitPortRules chain (ingressComment3 p) cidrSet tgtDst r.ports st
    let (st, eNamed, sNamed) ←
      emitIngressNamedPortRules env p.ns p.name i chain (ingressComment3 p) cidrSet 0 r.namedPorts st
    .ok (st, ePorts ++ eNamed, sNamed)
  else .ok (st, [], [])

/-- `processIngressRules` branch: source CIDR blocks. -/
def ingressIpBlockBranch (env : IpsetEnv) (p : NetworkPolicyInfo) (chain tgtDst : String)
    (i : Nat) (r : IngressRuleData) (st : KernelState) :
    Except String (KernelState × List Rule × List String) :=
  if r.srcIPBlocks.isEmpty then .ok (st, [], [])
  else do
    let cidrSet := policyIndexedSourceIpBlockIpSetName p.ns p.name i
    let st ← ipsetCreate env st cidrSet
    let st := ipsetRefresh env st cidrSet r.srcIPBlocks
    let (st, eP, sN) ← ingressIpBlockPorts env p chain tgtDst i cidrSet r st
    let (st, eAll) :=
      if r.matchAllPorts then
        let (st, r0) := emitRule st chain (ingressComment3 p) cidrSet tgtDst "" ""
        (st, [r0])
      else (st, [])
    .ok (st, eP ++ eAll, cidrSet :: sN)

/-- One iteration of the `processIngressRules` loop (ingress rule `i`). -/
def processOneIngressRule (env : IpsetEnv) (p : NetworkPolicyInfo)
    (chain tgtDst : String) (i : Nat) (r : IngressRuleData) (st : KernelState) :
    Except String (KernelState × List Rule × List String) := do
  let (st, e1, s1) ← ingressPodsBranch env p chain tgtDst i r st
  let (st, e2, s2) ← ingressMatchAllBranch env p chain tgtDst i r st
  let (st, e3) := ingressMatchAllAllBranch p chain tgtDst r st
  let (st, e4, s4) ← ingressIpBlockBranch env p chain tgtDst i r st
  .ok (st, e1 ++ e2 ++ e3 ++ e4, s1 ++ s2 ++ s4)

def processIngressRuleList (env : IpsetEnv) (p : NetworkPolicyInfo) (chain tgtDst : String) :
    Nat → List IngressRuleData → KernelState → Except String (KernelState × List Rule × List String)
  | _, [], st => .ok (st, [], [])
  | i, r :: rest, st => do
    let (st, e, s) ← processOneIngressRule env p chain tgtDst i r st
    let (st, es, ss) ← processIngressRuleList env p chain tgtDst (i + 1) rest st
    .ok (st, e ++ es, s ++ ss)

/-- `processIngressRules`: nil ingress rules mean deny-all, so no whitelist
rules are appended at all. -/
def processIngressRules (env : IpsetEnv) (p : NetworkPolicyInfo)
    (targetDestPodIpSetName version : String) (st : KernelState) :
    Except String (KernelState × List Rule × List String) :=
  match p.ingressRules with
  | none => .ok (st, [], [])
  | some rules =>
    processIngressRuleList env p (networkPolicyChainName p.ns p.name version)
      targetDestPodIpSetName 0 rules st

/-- The named-port inner loop of the egress destination-pods branch. -/
def emitEgressNamedPortRules (env : IpsetEnv) (ns polName : String) (i : Nat)
    (chain comment src : String) :
    Nat → List EndPoints → KernelState → Except String (KernelState × List Rule × List String)
  | _, [], st => .ok (st, [], [])
  | j, ep :: rest, st => do
    let namedSet := policyIndexedEgressNamedPortIpSetName ns polName i j
    let st ← ipsetCreate env st namedSet
    let st := ipsetRefresh env st namedSet (ipRows ep.ips)
    let (st, r) := emitRule st chain comment src namedSet ep.protocol ep.port
    let (st, es, ss) ← emitEgressNamedPortRules env ns polName i chain comment src (j + 1) rest st
    .ok (st, r :: es, namedSet :: ss)

/-- `processEgressRules` branch: destinations resolved to peer pods. -/
def egressPodsBranch (env : IpsetEnv) (p : NetworkPolicyInfo) (chain tgtSrc : String)
    (i : Nat) (r : EgressRuleData) (st : KernelState) :
    Except String (KernelState × List Rule × List String) :=
  if r.dstPods.isEmpty then .ok (st, [], [])
  else do
    let dstSet := policyIndexedDestinationPodIpSetName p.ns p.name i
    let st ← ipsetCreate env st dstSet
    let st := ipsetRefresh env st dstSet (ipRows (r.dstPods.map (·.ip)))
    let (st, ePorts) := emitPortRules chain (egressComment1 p) tgtSrc dstSet r.ports st
    let (st, eNamed, sNamed) ←
      emitEgressNamedPortRules env p.ns p.name i chain (egressComment1 p) tgtSrc 0 r.namedPorts st
    let (st, eNone) :=
      if r.ports.isEmpty && r.namedPorts.isEmpty then
        let (st, r0) := emitRule st chain (egressComment1 p) tgtSrc dstSet "" ""
        (st, [r0])
      else (st, [])
    .ok (st, ePorts ++ eNamed ++ eNone, dstSet :: sNamed)

/-- `processEgressRules` branch: match-all destinations with specific
ports — numeric-port rules only, and no destination-set match. -/
def egressMatchAllBranch (p : NetworkPolicyInfo) (chain tgtSrc : String)
    (r : EgressRuleData) (st : KernelState) : KernelState × List Rule :=
  if r.matchAllDestinations && !r.matchAllPorts then
    emitPortRules chain (egressComment2 p) tgtSrc "" r.ports st
  else (st, [])

/-- `processEgressRules` branch: match-all destinations and all ports. -/
def egressMatchAllAllBranch (p : NetworkPolicyInfo) (chain tgtSrc : String)
    (r : EgressRuleData) (st : KernelState) : KernelState × List Rule :=
  if r.matchAllDestinations && r.matchAllPorts then
    let (st, r0) := emitRule st chain (egressComment2 p) tgtSrc "" "" ""
    (st, [r0])
  else (st, [])

/-- `processEgressRules` branch: destination CIDR blocks — numeric-port
rules only. -/
def egressIpBlockBranch (env : IpsetEnv) (p : NetworkPolicyInfo) (chain tgtSrc : String)
    (i : Nat) (r : EgressRuleData) (st : KernelState) :
    Except String (KernelState × List Rule × List String) :=
  if r.dstIPBlocks.isEmpty then .ok (st, [], [])
  else do
    let cidrSet := policyIndexedDestinationIpBlockIpSetName p.ns p.name i
    let st ← ipsetCreate env st cidrSet
    let st := ipsetRefresh env st cidrSet r.dstIPBlocks
    let (st, eP) :=
      if !r.matchAllPorts then
        emitPortRules chain (egressComment3 p) tgtSrc cidrSet r.ports st
      else (st, [])
    let (st, eAll) :=
      if r.matchAllPorts then
        let (st, r0) := emitRule st chain (egressComment3 p) tgtSrc cidrSet "" ""
        (st, [r0])
      else (st, [])
    .ok (st, eP ++ eAll, [cidrSet])

/-- One iteration of the `processEgressRules` loop (egress rule `i`). -/
def processOneEgressRule (env : IpsetEnv) (p : NetworkPolicyInfo)
    (chain tgtSrc : String) (i : Nat) (r : EgressRuleData) (st : KernelState) :
    Except String (KernelState × List Rule × List String) := do
  let (st, e1, s1) ← egressPodsBranch env p chain tgtSrc i r st
  let (st, e2) := egressMatchAllBranch p chain tgtSrc r st
  let (st, e3) := egressMatchAllAllBranch p chain tgtSrc r st
  let (st, e4, s4) ← egressIpBlockBranch env p chain tgtSrc i r st
  .ok (st, e1 ++ e2 ++ e3 ++ e4, s1 ++ s4)

def processEgressRuleList (env : IpsetEnv) (p : NetworkPolicyInfo) (chain tgtSrc : String) :
    Nat → List EgressRuleData → KernelState → Except String (KernelState × List Rule × List String)
  | _, [], st => .ok (st, [], [])
  | i, r :: rest, st => do
    let (st, e, s) ← processOneEgressRule env p chain tgtSrc i r st
    let (st, es, ss) ← processEgressRuleList env p chain tgtSrc (i + 1) rest st
    .ok (st, e ++ es, s ++ ss)

def processEgressRules (env : IpsetEnv) (p : NetworkPolicyInfo)
    (targetSourcePodIpSetName version : String) (st : KernelState) :
    Except String (KernelState × List Rule × List String) :=
  match p.egressRules with
  | none => .ok (st, [], [])
  | some rules =>
    processEgressRuleList env p (networkPolicyChainName p.ns p.name version)
      targetSourcePodIpSetName 0 rules st

/-! ### `syncNetworkPolicyChains` -/

/-- The ingress side of one `syncNetworkPolicyChains` iteration: create
and refresh the target destination set, materialize the ingress rules,
then record the target set active. -/
def syncPolicyIngressPhase (env : IpsetEnv) (p : NetworkPolicyInfo) (version : String)
    (currnetPodIps : List String) (st : KernelState) (activeSets : List String) :
    Except String (KernelState × List String) :=
  if p.policyType = "both" || p.policyType = "ingress" then do
    let tgtDst := policyDestinationPodIpSetName p.ns p.name
    let st ← ipsetCreate env st tgtDst
    let st := ipsetRefresh env st tgtDst (ipRows currnetPodIps)
    let (st, _, s) ← processIngressRules env p tgtDst version st
    .ok (st, activeSets ++ s ++ [tgtDst])
  else .ok (st, activeSets)

/-- The egress side of one `syncNetworkPolicyChains` iteration. -/
def syncPolicyEgressPhase (env : IpsetEnv) (p : NetworkPolicyInfo) (version : String)
    (currnetPodIps : List String) (st : KernelState) (activeSets : List String) :
    Except String (KernelState × List String) :=
  if p.policyType = "both" || p.policyType = "egress" then do
    let tgtSrc := policySourcePodIpSetName p.ns p.name
    let st ← ipsetCreate env st tgtSrc
    let st := ipsetRefresh env st tgtSrc (ipRows currnetPodIps)
    let (st, _, s) ← processEgressRules env p tgtSrc version st
    .ok (st, activeSets ++ s ++ [tgtSrc])
  else .ok (st, activeSets)

def syncPolicyLoop (env : IpsetEnv) (version : String) :
    List NetworkPolicyInfo → KernelState → List String → List String →
    Except String (KernelState × List String × List String)
  | [], st, activeChains, activeSets => .ok (st, activeChains, activeSets)
  | p :: rest, st, activeChains, activeSets => do
    let policyChainName := networkPolicyChainName p.ns p.name version
    let st := newChain st policyChainName
    let activeChains := activeChains ++ [policyChainName]
    let currnetPodIps := p.targetPods.map (·.1)
    let (st, activeSets) ← syncPolicyIngressPhase env p version currnetPodIps st activeSets
    let (st, activeSets) ← syncPolicyEgressPhase env p version currnetPodIps st activeSets
    syncPolicyLoop env version rest st activeChains activeSets

def syncNetworkPolicyChains (env : IpsetEnv) (policies : List NetworkPolicyInfo)
    (version : String) (st : KernelState) :
    Except String (KernelState × List String × List String) :=
  syncPolicyLoop env version policies st [] []

/-! ### Pod classification and `syncPodFirewallChains` -/

structure ApiContainerPort where
  name : String
  protocol : String
  containerPort : Nat
deriving DecidableEq, Repr

structure ApiPod where
  name : String
  ns : String
  labels : List (String × String)
  podIP : String
  hostIP : String
  containers : List (List ApiContainerPort)
deriving DecidableEq, Repr

def apiPodInfo (pod : ApiPod) : PodInfo :=
  ⟨pod.podIP, pod.name, pod.ns, pod.labels⟩

/-- Whether some policy in the list targets this local pod with an
ingress-kind (`"both"`/`"ingress"`) policy in the pod's namespace. -/
def podIngressEnabled (policies : List NetworkPolicyInfo) (pod : ApiPod) : Bool :=
  policies.any (fun policy =>
    policy.ns == pod.ns &&
    (policy.targetPods.any (fun e => e.1 == pod.podIP)) &&
    (policy.policyType == "both" || policy.policyType == "ingress"))

def podEgressEnabled (policies : List NetworkPolicyInfo) (pod : ApiPod) : Bool :=
  policies.any (fun policy =>
    policy.ns == pod.ns &&
    (policy.targetPods.any (fun e => e.1 == pod.podIP)) &&
    (policy.policyType == "both" || policy.policyType == "egress"))

def getIngressEnabledLoop (policies : List NetworkPolicyInfo) (nodeIp : String) :
    List ApiPod → List (String × PodInfo) → List (String × PodInfo)
  | [], acc => acc
  | pod :: rest, acc =>
    if pod.hostIP ≠ nodeIp then getIngressEnabledLoop policies nodeIp rest acc
    else if podIngressEnabled policies pod then
      getIngressEnabledLoop policies nodeIp rest (assocPut acc pod.podIP (apiPodInfo pod))
    else getIngressEnabledLoop policies nodeIp rest acc

def getEgressEnabledLoop (policies : List NetworkPolicyInfo) (nodeIp : String) :
    List ApiPod → List (String × PodInfo) → List (String × PodInfo)
  | [], acc => acc
  | pod :: rest, acc =>
    if pod.hostIP ≠ nodeIp then getEgressEnabledLoop policies nodeIp rest acc
    else if podEgressEnabled policies pod then
      getEgressEnabledLoop policies nodeIp rest (assocPut acc pod.podIP (apiPodInfo pod))
    else getEgressEnabledLoop policies nodeIp rest acc

/-- `getIngressNetworkPolicyEnabledPods`: local pods targeted by some
ingress-kind policy, keyed by pod IP (Go map insertion, replacing). -/
def getIngressNetworkPolicyEnabledPods (policies : List NetworkPolicyInfo)
    (pods : List ApiPod) (nodeIp : String) : List (String × PodInfo) :=
  getIngressEnabledLoop policies nodeIp pods []

def getEgressNetworkPolicyEnabledPods (policies : List NetworkPolicyInfo)
    (pods : List ApiPod) (nodeIp : String) : List (String × PodInfo) :=
  getEgressEnabledLoop policies nodeIp pods []

def jumpRule (policyName policyChain : String) : Rule :=
  ["-m", "comment", "--comment", "run through nw policy " ++ policyName, "-j", policyChain]

def localSourceRule (podIp : String) : Rule :=
  ["-m", "comment", "--comment",
   "rule to permit the traffic traffic to pods when source is the pod's local node",
   "-m", "addrtype", "--src-type", "LOCAL", "-d", podIp, "-j", "ACCEPT"]

def conntrackRule : Rule :=
  ["-m", "comment", "--comment", "rule for stateful firewall for pod",
   "-m", "conntrack", "--ctstate", "RELATED,ESTABLISHED", "-j", "ACCEPT"]

def ingressDivertComment (pod : PodInfo) (podFwChain : String) : String :=
  "rule to jump traffic destined to POD name:" ++ pod.name ++ " namespace: " ++ pod.ns ++
    " to chain " ++ podFwChain

def ingressDivertRule (pod : PodInfo) (podFwChain : String) : Rule :=
  ["-m", "comment", "--comment", ingressDivertComment pod podFwChain, "-d", pod.ip, "-j", podFwChain]

def ingressPhysdevRule (pod : PodInfo) (podFwChain : String) : Rule :=
  ["-m", "physdev", "--physdev-is-bridged",
   "-m", "comment", "--comment", ingressDivertComment pod podFwChain,
   "-d", pod.ip, "-j", podFwChain]

def egressDivertComment (pod : PodInfo) (podFwChain : String) : String :=
  "rule to jump traffic from POD name:" ++ pod.name ++ " namespace: " ++ pod.ns ++
    " to chain " ++ podFwChain

def egressDivertRule (pod : PodInfo) (podFwChain : String) : Rule :=
  ["-m", "comment", "--comment", egressDivertComment pod podFwChain, "-s", pod.ip, "-j", podFwChain]

def egressPhysdevRule (pod : PodInfo) (podFwChain : String) : Rule :=
  ["-m", "physdev", "--physdev-is-bridged",
   "-m", "comment", "--comment", egressDivertComment pod podFwChain,
   "-s", pod.ip, "-j", podFwChain]

def nflogRule (pod : PodInfo) : Rule :=
  ["-m", "comment", "--comment",
   "rule to log dropped traffic POD name:" ++ pod.name ++ " namespace: " ++ pod.ns,
   "-j", "NFLOG", "--nflog-group", "100", "-m", "limit", "--limit", "10/minute",
   "--limit-burst", "10"]

def rejectRule (pod : PodInfo) : Rule :=
  ["-m", "comment", "--comment",
   "default rule to REJECT traffic destined for POD name:" ++ pod.name ++
     " namespace: " ++ pod.ns,
   "-j", "REJECT"]

/-- Insert the jump to every network policy chain whose target set contains
this pod's IP (checked with `Exists`, inserted at position 1 when absent). -/
def installPolicyJumps (policies : List NetworkPolicyInfo) (version : String)
    (podFwChainName podIp : String) (st : KernelState) : KernelState :=
  policies.foldl
    (fun st policy =>
      if policy.targetPods.any (fun e => e.1 == podIp) then
        ensureRuleFirst st podFwChainName
          (jumpRule policy.name (networkPolicyChainName policy.ns policy.name version))
      else st)
    st

def podFwIngressLoop (policies : List NetworkPolicyInfo) (version : String) :
    List PodInfo → KernelState → List String → KernelState × List String
  | [], st, active => (st, active)
  | pod :: rest, st, active =>
    if pod.ip = "" then podFwIngressLoop policies version rest st active
    else
      let podFwChainName := podFirewallChainName pod.ns pod.name version
      let st := newChain st podFwChainName
      let active := active ++ [podFwChainName]
      let st := installPolicyJumps policies version podFwChainName pod.ip st
      let st := ensureRuleFirst st podFwChainName (localSourceRule pod.ip)
      let st := ensureRuleFirst st podFwChainName conntrackRule
      let st := ensureRuleFirst st "FORWARD" (ingressDivertRule pod podFwChainName)
      let st := ensureRuleFirst st "OUTPUT" (ingressDivertRule pod podFwChainName)
      let st := ensureRuleFirst st "FORWARD" (ingressPhysdevRule pod podFwChainName)
      let st := appendUnique st podFwChainName (nflogRule pod)
      let st := appendUnique st podFwChainName (rejectRule pod)
      podFwIngressLoop policies version rest st active

def podFwEgressLoop (policies : List NetworkPolicyInfo) (version : String) :
    List PodInfo → KernelState → List String → KernelState × List String
  | [], st, active => (st, active)
  | pod :: rest, st, active =>
    if pod.ip = "" then podFwEgressLoop policies version rest st active
    else
      let podFwChainName := podFirewallChainName pod.ns pod.name version
      let st := newChain st podFwChainName
      let active := active ++ [podFwChainName]
      let st := installPolicyJumps policies version podFwChainName pod.ip st
      let st := ensureRuleFirst st podFwChainName conntrackRule
      let st := builtinChains.foldl
        (fun st chain => ensureRuleFirst st chain (egressDivertRule pod podFwChainName)) st
      let st := ensureRuleFirst st "FORWARD" (egressPhysdevRule pod podFwChainName)
      let st := appendUnique st podFwChainName (nflogRule pod)
      let st := appendUnique st podFwChainName (rejectRule pod)
      podFwEgressLoop policies version rest st active

def syncPodFirewallChains (policies : List NetworkPolicyInfo) (pods : List ApiPod)
    (nodeIp version : String) (st : KernelState) : KernelState × List String :=
  let ingressPods := (getIngressNetworkPolicyEnabledPods policies pods nodeIp).map (·.2)
  let (st, active) := podFwIngressLoop policies version ingressPods st []
  let egressPods := (getEgressNetworkPolicyEnabledPods policies pods nodeIp).map (·.2)
  podFwEgressLoop policies version egressPods st active

/-! ### `cleanupStaleRules` -/

/-- `strings.Contains(rule, chainName)` over a tokenized rule: a chain name
contains no whitespace, so it occurs in the rendered rule text iff it
occurs inside one of the tokens. -/
def ruleMentions (r : Rule) (name : String) : Bool :=
  r.any (fun tok => strContains tok name)

/-- The delete-by-rule-number scan over a chain listing snapshot, keeping
the running offset `realRuleNo` exactly as the Go loop does. -/
def deleteRefsScan (target chain : String) :
    List Rule → Nat → Nat → KernelState → Except String KernelState
  | [], _, _, st => .ok st
  | r :: rest, i, realRuleNo, st =>
    if ruleMentions r target then
      match deleteRuleNum st chain (i - realRuleNo) with
      | none => .error ("failed to delete rule from the " ++ chain ++ " chain of filter table")
      | some st' => deleteRefsScan target chain rest (i + 1) (realRuleNo + 1) st'
    else deleteRefsScan target chain rest (i + 1) realRuleNo st

/-- Remove every reference to a stale pod firewall chain from one top-level
chain. -/
def deleteRefsFrom (target chain : String) (st : KernelState) : Except String KernelState :=
  match listRules st chain with
  | none => .error ("failed to list rules in filter table, " ++ chain ++ " podFwChain")
  | some rules => deleteRefsScan target chain rules 0 0 st

def deleteRefsTopLevel (target : String) (st : KernelState) : Except String KernelState := do
  let st ← deleteRefsFrom target "FORWARD" st
  let st ← deleteRefsFrom target "OUTPUT" st
  deleteRefsFrom target "INPUT" st

def phasePodFwRefs : List String → KernelState → Except String KernelState
  | [], st => .ok st
  | c :: rest, st => do phasePodFwRefs rest (← deleteRefsTopLevel c st)

def clearThenDelete (c : String) (st : KernelState) : Except String KernelState :=
  match deleteChain (clearChain st c) c with
  | none => .error ("Failed to delete the chain " ++ c)
  | some st' => .ok st'

def phaseClearDelete : List String → KernelState → Except String KernelState
  | [], st => .ok st
  | c :: rest, st => do phaseClearDelete rest (← clearThenDelete c st)

/-- Find the first rule (by listing index, header included) mentioning the
stale policy chain and delete it by that number; the Go code breaks after
one deletion and swallows a listing error (leaving a nil rule list). -/
def deleteFirstPolicyRef (policyChain podFwChain : String) (st : KernelState) :
    Except String KernelState :=
  match listRules st podFwChain with
  | none => .ok st
  | some rules =>
    match rules.findIdx? (fun r => ruleMentions r policyChain) with
    | none => .ok st
    | some i =>
      match deleteRuleNum st podFwChain i with
      | none => .error ("Failed to delete rule from the chain " ++ podFwChain)
      | some st' => .ok st'

def phasePolicyRefs (policyChain : String) : List String → KernelState → Except String KernelState
  | [], st => .ok st
  | c :: rest, st => do phasePolicyRefs policyChain rest (← deleteFirstPolicyRef policyChain c st)

def phasePolicyChains (activePodFwChains : List String) :
    List String → KernelState → Except String KernelState
  | [], st => .ok st
  | pc :: rest, st => do
    let st ← phasePolicyRefs pc activePodFwChains st
    let st ← clearThenDelete pc st
    phasePolicyChains activePodFwChains rest st

def phaseDestroyIpsets : List String → KernelState → Except String KernelState
  | [], st => .ok st
  | s :: rest, st =>
    match ipsetDestroy st s with
    | none => .error ("Failed to delete ipset " ++ s)
    | some st' => phaseDestroyIpsets rest st'

def cleanupStaleRules (st : KernelState)
    (activePolicyChains activePodFwChains activePolicyIPSets : List String) :
    Except String KernelState :=
  let cleanupPolicyChains := (chainNames st).filter
    (fun c => strHasPrefix kubeNetworkPolicyChainPrefix c && !(activePolicyChains.contains c))
  let cleanupPodFwChains := (chainNames st).filter
    (fun c => strHasPrefix kubePodFirewallChainPrefix c && !(activePodFwChains.contains c))
  let cleanupPolicyIPSets := (st.ipsets.map (·.1)).filter
    (fun s => (strHasPrefix kubeSourceIpSetPrefix s || strHasPrefix kubeDestinationIpSetPrefix s) &&
      !(activePolicyIPSets.contains s))
  do
    let st ← phasePodFwRefs cleanupPodFwChains st
    let st ← phaseClearDelete cleanupPodFwChains st
    let st ← phasePolicyChains activePodFwChains cleanupPolicyChains st
    phaseDestroyIpsets cleanupPolicyIPSets st

/-! ### `Sync` (the phases after model building) -/

def SyncModel (env : IpsetEnv) (policies : List NetworkPolicyInfo) (pods : List ApiPod)
    (nodeIp version : String) (st : KernelState) : Except String KernelState := do
  let (st, activePolicyChains, activePolicyIpSets) ← syncNetworkPolicyChains env policies version st
  let (st, activePodFwChains) := syncPodFirewallChains policies pods nodeIp version st
  cleanupStaleRules st activePolicyChains activePodFwChains activePolicyIpSets

/-! ### Policy model builders

Label selectors are modelled as their evaluated predicates.  The
three-level named-port table `name → protocol → numeric port → endpoints`
is an assoc list in Go-map insertion order. -/

structure ApiNamespace where
  name : String
  labels : List (String × String)

structure IPBlockSpec where
  cidr : String
  except : List String

structure NetworkPolicyPeer where
  podSelector : Option (ApiPod → Bool)
  namespaceSelector : Option (ApiNamespace → Bool)
  ipBlock : Option IPBlockSpec

inductive IntOrString where
  | int (n : Nat)
  | str (s : String)
deriving DecidableEq, Repr

structure NetworkPolicyPort where
  protocol : String
  port : Option IntOrString

abbrev NumericPort2eps := List (String × EndPoints)
abbrev Protocol2eps := List (String × NumericPort2eps)
abbrev NamedPort2eps := List (String × Protocol2eps)

def assocGet? {α : Type} (l : List (String × α)) (k : String) : Option α :=
  (l.find? (fun e => e.1 == k)).map (·.2)

/-- `grabNamedPortFromPod` for one container port of one pod. -/
def updateNamedPortMap (pod : ApiPod) (m : NamedPort2eps) (port : ApiContainerPort) : NamedPort2eps :=
  let name := port.name
  let protocol := port.protocol
  let containerPort := toString port.containerPort
  let p2 := (assocGet? m name).getD []
  let n2 := (assocGet? p2 protocol).getD []
  let n2' :=
    match assocGet? n2 containerPort with
    | none => assocPut n2 containerPort ⟨[pod.podIP], protocol, containerPort⟩
    | some eps => assocPut n2 containerPort ⟨eps.ips ++ [pod.podIP], eps.protocol, eps.port⟩
  assocPut m name (assocPut p2 protocol n2')

def grabNamedPortFromPod (pod : ApiPod) (m : NamedPort2eps) : NamedPort2eps :=
  pod.containers.foldl (fun m ports => ports.foldl (updateNamedPortMap pod) m) m

/-- `processNetworkPolicyPorts`: classify each port entry as numeric or
named; a named port expands through the table to its endpoint records. -/
def processNetworkPolicyPorts (npPorts : List NetworkPolicyPort) (m : NamedPort2eps) :
    List ProtocolAndPort × List EndPoints :=
  npPorts.foldl
    (fun acc npPort =>
      match npPort.port with
      | none => (acc.1 ++ [⟨npPort.protocol, ""⟩], acc.2)
      | some (.int n) => (acc.1 ++ [⟨npPort.protocol, toString n⟩], acc.2)
      | some (.str s) =>
        match assocGet? m s with
        | none => acc
        | some p2 =>
          match assocGet? p2 npPort.protocol with
          | none => acc
          | some n2 => (acc.1, acc.2 ++ n2.map (·.2)))
    ([], [])

/-- `processBetaNetworkPolicyPorts` is textually the same algorithm over
the beta port type. -/
def processBetaNetworkPolicyPorts (npPorts : List NetworkPolicyPort) (m : NamedPort2eps) :
    List ProtocolAndPort × List EndPoints :=
  processNetworkPolicyPorts npPorts m

def listPodsByNamespaceAndLabels (pods : List ApiPod) (ns : String) (sel : ApiPod → Bool) :
    List ApiPod :=
  pods.filter (fun p => p.ns == ns && sel p)

def listNamespaceByLabels (nss : List ApiNamespace) (sel : ApiNamespace → Bool) :
    List ApiNamespace :=
  nss.filter sel

/-- `evalPodPeer`: a namespace selector resolves across all matching
namespaces (with the pod selector defaulting to everything); a pod
selector alone resolves within the policy's own namespace. -/
def evalPodPeer (pods : List ApiPod) (nss : List ApiNamespace) (policyNs : String)
    (peer : NetworkPolicyPeer) : List ApiPod :=
  match peer.namespaceSelector with
  | some nsSel =>
    let namespaces := listNamespaceByLabels nss nsSel
    let podSel := peer.podSelector.getD (fun _ => true)
    namespaces.foldl (fun acc n => acc ++ listPodsByNamespaceAndLabels pods n.name podSel) []
  | none =>
    match peer.podSelector with
    | some podSel => listPodsByNamespaceAndLabels pods policyNs podSel
    | none => []

/-- `evalIPBlockPeer`: only peers carrying nothing but an IPBlock
contribute; a CIDR whose text ends in "/0" is rewritten to the two
half-space entries, and the same suffix test governs each except entry
(flagged `nomatch`). -/
def evalIPBlockPeer (peer : NetworkPolicyPeer) : List (List String) :=
  match peer.podSelector, peer.namespaceSelector, peer.ipBlock with
  | none, none, some b =>
    (if strHasSuffix "/0" b.cidr then
      [["0.0.0.0/1", "timeout", "0"], ["128.0.0.0/1", "timeout", "0"]]
    else [[b.cidr, "timeout", "0"]]) ++
    b.except.flatMap (fun e =>
      if strHasSuffix "/0" e then
        [["0.0.0.0/1", "timeout", "0", "nomatch"], ["128.0.0.0/1", "timeout", "0", "nomatch"]]
      else [[e, "timeout", "0", "nomatch"]])
  | _, _, _ => []

structure ApiIngressRuleSpec where
  fromPeers : List NetworkPolicyPeer
  ports : List NetworkPolicyPort

structure ApiEgressRuleSpec where
  toPeers : List NetworkPolicyPeer
  ports : List NetworkPolicyPort

structure ApiNetworkPolicy where
  name : String
  ns : String
  podSelector : ApiPod → Bool
  policyTypes : List String
  ingress : Option (List ApiIngressRuleSpec)
  egress : Option (List ApiEgressRuleSpec)

/-- The policy-kind resolution of `buildNetworkPoliciesInfo`: the field is
initialized to "ingress" and then overwritten from the declared
policy-type flags. -/
def buildPolicyType (policyTypes : List String) : String :=
  let flags := policyTypes.foldl
    (fun (acc : Bool × Bool) t => (acc.1 || t == "Ingress", acc.2 || t == "Egress"))
    (false, false)
  if flags.1 && flags.2 then "both"
  else if flags.2 then "egress"
  else if flags.1 then "ingress"
  else "ingress"

def buildIngressRule (pods : List ApiPod) (nss : List ApiNamespace)
    (policyNs : String) (namedEps : NamedPort2eps) (spec : ApiIngressRuleSpec) :
    IngressRuleData :=
  let (matchAllSource, srcPods, srcIPBlocks) :=
    if spec.fromPeers.isEmpty then (true, [], [])
    else
      (false,
       spec.fromPeers.foldl
         (fun acc peer =>
           acc ++ (evalPodPeer pods nss policyNs peer).filterMap
             (fun p => if p.podIP == "" then none else some (apiPodInfo p)))
         [],
       spec.fromPeers.foldl (fun acc peer => acc ++ evalIPBlockPeer peer) [])
  let (matchAllPorts, ports, namedPorts) :=
    if spec.ports.isEmpty then (true, [], [])
    else
      let (np, nmp) := processNetworkPolicyPorts spec.ports namedEps
      (false, np, nmp)
  ⟨matchAllPorts, ports, namedPorts, matchAllSource, srcPods, srcIPBlocks⟩

def buildEgressRule (pods : List ApiPod) (nss : List ApiNamespace)
    (policyNs : String) (spec : ApiEgressRuleSpec) : EgressRuleData :=
  let (matchAllDestinations, dstPods, dstIPBlocks, namedEps) :=
    if spec.toPeers.isEmpty then (true, [], [], ([] : NamedPort2eps))
    else
      let folded := spec.toPeers.foldl
        (fun (acc : List PodInfo × List (List String) × NamedPort2eps) peer =>
          let stepped := (evalPodPeer pods nss policyNs peer).foldl
            (fun (a : List PodInfo × NamedPort2eps) p =>
              if p.podIP == "" then a
              else (a.1 ++ [apiPodInfo p], grabNamedPortFromPod p a.2))
            (acc.1, acc.2.2)
          (stepped.1, acc.2.1 ++ evalIPBlockPeer peer, stepped.2))
        ([], [], [])
      (false, folded.1, folded.2.1, folded.2.2)
  let (matchAllPorts, ports, namedPorts) :=
    if spec.ports.isEmpty then (true, [], [])
    else
      let (np, nmp) := processNetworkPolicyPorts spec.ports namedEps
      (false, np, nmp)
  ⟨matchAllPorts, ports, namedPorts, matchAllDestinations, dstPods, dstIPBlocks⟩

/-- `buildNetworkPoliciesInfo` restricted to one policy object. -/
def buildNetworkPolicy (pods : List ApiPod) (nss : List ApiNamespace)
    (policy : ApiNetworkPolicy) : NetworkPolicyInfo :=
  let policyType := buildPolicyType policy.policyTypes
  let matchingPods := listPodsByNamespaceAndLabels pods policy.ns policy.podSelector
  let built := matchingPods.foldl
    (fun (acc : List (String × PodInfo) × NamedPort2eps) p =>
      if p.podIP == "" then acc
      else (assocPut acc.1 p.podIP (apiPodInfo p), grabNamedPortFromPod p acc.2))
    ([], [])
  let ingressRules :=
    match policy.ingress with
    | none => none
    | some specRules => some (specRules.map (buildIngressRule pods nss policy.ns built.2))
  let egressRules :=
    match policy.egress with
    | none => none
    | some specRules => some (specRules.map (buildEgressRule pods nss policy.ns))
  ⟨policy.name, policy.ns, built.1, ingressRules, egressRules, policyType⟩

def buildNetworkPoliciesInfo (pods : List ApiPod) (nss : List ApiNamespace)
    (policies : List ApiNetworkPolicy) : List NetworkPolicyInfo :=
  policies.map (buildNetworkPolicy pods nss)

/-! ### Legacy (beta-schema) builder -/

structure ApiBetaIngressRule where
  fromPeers : List (ApiPod → Bool)
  ports : List NetworkPolicyPort

structure ApiBetaNetworkPolicy where
  name : String
  ns : String
  podSelector : ApiPod → Bool
  ingress : List ApiBetaIngressRule

/-- One ingress rule of the legacy builder: only ports/named-ports and
source pods are populated; `matchAllPorts`, `matchAllSource` and
`srcIPBlocks` keep the Go zero values. -/
def buildBetaIngressRule (pods : List ApiPod) (policyNs : String) (m : NamedPort2eps)
    (spec : ApiBetaIngressRule) : IngressRuleData :=
  let (ports, namedPorts) := processBetaNetworkPolicyPorts spec.ports m
  let srcPods := spec.fromPeers.foldl
    (fun acc sel =>
      acc ++ (listPodsByNamespaceAndLabels pods policyNs sel).filterMap
        (fun p => if p.podIP == "" then none else some (apiPodInfo p)))
    []
  { matchAllPorts := false, ports, namedPorts, matchAllSource := false,
    srcPods, srcIPBlocks := [] }

/-- `buildBetaNetworkPoliciesInfo` restricted to one policy object: the
policy type, egress rules, CIDR blocks and matchAll flags are never
populated. -/
def buildBetaNetworkPolicy (pods : List ApiPod) (policy : ApiBetaNetworkPolicy) :
    NetworkPolicyInfo :=
  let matchingPods := listPodsByNamespaceAndLabels pods policy.ns policy.podSelector
  let built := matchingPods.foldl
    (fun (acc : List (String × PodInfo) × NamedPort2eps) p =>
      if p.podIP == "" then acc
      else (assocPut acc.1 p.podIP (apiPodInfo p), grabNamedPortFromPod p acc.2))
    ([], [])
  let ingressRules := policy.ingress.map (buildBetaIngressRule pods policy.ns built.2)
  ⟨policy.name, policy.ns, built.1, some ingressRules, none, ""⟩

/-! ### Reconciler loop and event callbacks -/

structure NpcState where
  readyForUpdates : Bool
  v1NetworkPolicy : Bool
  syncCalls : Nat
  heartbeats : Nat
deriving DecidableEq, Repr

/-- Controller state as `NewNetworkPolicyController` leaves it for the
event funnel: `readyForUpdates` is the Go zero value `false`. -/
def initNpcState (v1 : Bool) : NpcState := ⟨false, v1, 0, 0⟩

/-- One iteration of the `Run` loop body: `Sync` is attempted, a heartbeat
is sent only on success, and `readyForUpdates` is then set unconditionally
(whether or not `Sync` returned an error). -/
def runIteration (syncSucceeds : Bool) (s : NpcState) : NpcState :=
  let s := { s with syncCalls := s.syncCalls + 1 }
  let s := if syncSucceeds then { s with heartbeats := s.heartbeats + 1 } else s
  { s with readyForUpdates := true }

def onPodUpdate (s : NpcState) : NpcState :=
  if !s.readyForUpdates then s else { s with syncCalls := s.syncCalls + 1 }

def onNetworkPolicyUpdate (s : NpcState) : NpcState :=
  if !s.readyForUpdates then s else { s with syncCalls := s.syncCalls + 1 }

def onNamespaceUpdate (s : NpcState) : NpcState :=
  if s.v1NetworkPolicy then s
  else if !s.readyForUpdates then s
  else { s with syncCalls := s.syncCalls + 1 }

def handlePodDelete (s : NpcState) : NpcState :=
  if !s.readyForUpdates then s else { s with syncCalls := s.syncCalls + 1 }

def handleNetworkPolicyDelete (s : NpcState) : NpcState :=
  if !s.readyForUpdates then s else { s with syncCalls := s.syncCalls + 1 }

def handleNamespaceDelete (s : NpcState) : NpcState :=
  if s.v1NetworkPolicy then s
  else if !s.readyForUpdates then s
  else { s with syncCalls := s.syncCalls + 1 }

/-! ### Further definitions used by the statements below -/

/-- A kernel state with just the three built-in `filter` chains and no
ipsets: the state of a fresh node. -/
def baseState : KernelState :=
  ⟨[("FORWARD", []), ("OUTPUT", []), ("INPUT", [])], []⟩

/-- The emitted-rule projection of `processEgressRules` under an
ipset driver with no transient failures. -/
def egressEmits (p : NetworkPolicyInfo) (tgtSrc version : String) (st : KernelState) :
    List Rule :=
  match processEgressRules noFailEnv p tgtSrc version st with
  | .ok (_, e, _) => e
  | .error _ => []

/-- Spec-side mirror (refinement reference, written from the
specification's symmetry clause, not from the Go code): the named-port
rules an egress rule would emit in a branch, one per endpoint, with
source = the target-source set and destination = the indexed egress
named-port set. -/
def specEgressNamedRules (ns polName : String) (i : Nat) (comment src : String) :
    Nat → List EndPoints → List Rule
  | _, [] => []
  | j, ep :: rest =>
    ruleArgs comment src (policyIndexedEgressNamedPortIpSetName ns polName i j)
        ep.protocol ep.port ::
      specEgressNamedRules ns polName i comment src (j + 1) rest

/-- Spec-side mirror, destination-pods case: mirror of the ingress
"sources resolved to pods" materialization. -/
def specEgressChunk1 (p : NetworkPolicyInfo) (tgtSrc : String) (i : Nat)
    (r : EgressRuleData) : List Rule :=
  if r.dstPods.isEmpty then [] else
    let dstSet := policyIndexedDestinationPodIpSetName p.ns p.name i
    r.ports.map (fun pp => ruleArgs (egressComment1 p) tgtSrc dstSet pp.protocol pp.port) ++
    specEgressNamedRules p.ns p.name i (egressComment1 p) tgtSrc 0 r.namedPorts ++
    (if r.ports.isEmpty && r.namedPorts.isEmpty then
      [ruleArgs (egressComment1 p) tgtSrc dstSet "" ""] else [])

/-- Spec-side mirror, match-all-destinations-with-ports case: numeric and
named port rules, mirroring the ingress match-all case. -/
def specEgressChunk2 (p : NetworkPolicyInfo) (tgtSrc : String) (i : Nat)
    (r : EgressRuleData) : List Rule :=
  if r.matchAllDestinations && !r.matchAllPorts then
    r.ports.map (fun pp => ruleArgs (egressComment2 p) tgtSrc "" pp.protocol pp.port) ++
    specEgressNamedRules p.ns p.name i (egressComment2 p) tgtSrc 0 r.namedPorts
  else []

/-- Spec-side mirror, match-all-destinations-and-all-ports case. -/
def specEgressChunk3 (p : NetworkPolicyInfo) (tgtSrc : String)
    (r : EgressRuleData) : List Rule :=
  if r.matchAllDestinations && r.matchAllPorts then
    [ruleArgs (egressComment2 p) tgtSrc "" "" ""] else []

/-- Spec-side mirror, CIDR-blocks case: numeric and named port rules,
mirroring the ingress CIDR case. -/
def specEgressChunk4 (p : NetworkPolicyInfo) (tgtSrc : String) (i : Nat)
    (r : EgressRuleData) : List Rule :=
  if r.dstIPBlocks.isEmpty then [] else
    let cidrSet := policyIndexedDestinationIpBlockIpSetName p.ns p.name i
    (if !r.matchAllPorts then
      r.ports.map (fun pp => ruleArgs (egressComment3 p) tgtSrc cidrSet pp.protocol pp.port) ++
      specEgressNamedRules p.ns p.name i (egressComment3 p) tgtSrc 0 r.namedPorts
    else []) ++
    (if r.matchAllPorts then [ruleArgs (egressComment3 p) tgtSrc cidrSet "" ""] else [])

/-- Spec-side mirror (refinement reference, written from the
specification's symmetry clause, not from the Go code): the rules one
egress rule should emit if every ingress materialization case had an
egress counterpart using source = target-source set and destination = the
rule's resolved set. -/
def specMirrorOneEgressRule (p : NetworkPolicyInfo) (tgtSrc : String) (i : Nat)
    (r : EgressRuleData) : List Rule :=
  specEgressChunk1 p tgtSrc i r ++ specEgressChunk2 p tgtSrc i r ++
  specEgressChunk3 p tgtSrc r ++ specEgressChunk4 p tgtSrc i r

def specMirrorEgressLoop (p : NetworkPolicyInfo) (tgtSrc : String) :
    Nat → List EgressRuleData → List Rule
  | _, [] => []
  | i, r :: rest =>
    specMirrorOneEgressRule p tgtSrc i r ++ specMirrorEgressLoop p tgtSrc (i + 1) rest

def specMirrorEgressEmits (p : NetworkPolicyInfo) (tgtSrc : String)
    (rs : List EgressRuleData) : List Rule :=
  specMirrorEgressLoop p tgtSrc 0 rs

/-- Legacy-shaped current-schema policy: no declared policy types, only an
egress rule present. -/
def c8LegacyPolicy : ApiNetworkPolicy :=
  ⟨"p", "ns", fun _ => true, [], none, some [⟨[], []⟩]⟩

/-- An egress rule with no destinations and one named port: the shape on
which the egress/ingress mirror breaks. -/
def c3BreakingPolicy : NetworkPolicyInfo :=
  ⟨"p", "ns", [], none,
   some [⟨false, [], [⟨["10.1.1.1"], "tcp", "8080"⟩], true, [], []⟩], "egress"⟩

/-- A deny-all ingress policy over one target pod, used for the C5
counterexample: its target destination set still has to be created. -/
def c5Policy : NetworkPolicyInfo :=
  ⟨"p", "ns", [("10.0.0.5", ⟨"10.0.0.5", "c", "ns", []⟩)], some [], none, "ingress"⟩

/-- An ipset driver whose every create call fails transiently. -/
def allCreateFailEnv : IpsetEnv := ⟨fun _ => true, fun _ => false⟩

/-- A kernel state holding one stale policy chain, one stale pod firewall
chain and one stale source ipset next to an active destination ipset. -/
def c1State : KernelState :=
  ⟨[("FORWARD", []), ("OUTPUT", []), ("INPUT", []),
    ("KUBE-NWPLCY-STALE1", []), ("KUBE-POD-FW-STALE2", [["-j", "KUBE-NWPLCY-STALE1"]])],
   [("KUBE-SRC-STALE3", []), ("KUBE-DST-KEEP", [])]⟩

/-- The deny-all scenario of the spec's first worked example: an
ingress-kind policy with a nil ingress rule list, targeting one pod. -/
def c2Policy (ns pn podName ip : String) : NetworkPolicyInfo :=
  ⟨pn, ns, [(ip, ⟨ip, podName, ns, []⟩)], none, none, "ingress"⟩

/-- The one local pod of the deny-all scenario, scheduled on this node. -/
def c2Pod (ns podName ip nodeIp : String) : ApiPod :=
  ⟨podName, ns, [], ip, nodeIp, []⟩

/-- Check evaluated by the C2 counterexample: after a successful reconcile
of the deny-all scenario, the pod firewall chain contains the jump rule
into the (empty) policy chain. -/
def c2JumpPresent : Bool :=
  match SyncModel noFailEnv [c2Policy "ns" "deny" "pod" "10.1.0.5"]
      [c2Pod "ns" "pod" "10.1.0.5" "192.168.1.1"] "192.168.1.1" "v1" baseState with
  | .ok st =>
    match findChain? st (podFirewallChainName "ns" "pod" "v1") with
    | some rs => rs.contains (jumpRule "deny" (networkPolicyChainName "ns" "deny" "v1"))
    | none => false
  | .error _ => false

deriving instance DecidableEq for Except

end Netpol

namespace Netpol

/-! ## Lemmas -/

lemma data_append (s t : String) : (s ++ t).data = s.data ++ t.data := rfl

lemma hasPrefixL_self_append (p rest : List Char) : hasPrefixL p (p ++ rest) = true := by
  induction p with
  | nil => rfl
  | cons c cs ih => simp [hasPrefixL, ih]

lemma strHasSuffix_append (suf s : String) : strHasSuffix suf (s ++ suf) = true := by
  simp [strHasSuffix, data_append, List.reverse_append, hasPrefixL_self_append]

/-! ### String-inequality toolkit for symbolic chain / set names -/

lemma append_ne_short {p q : String} (h : q.data.length < p.data.length) (x : String) :
    ¬ (p ++ x = q) := by
  intro he
  have hl : p.data.length + x.data.length = q.data.length := by
    have h2 := congrArg (fun s => s.data.length) he
    simpa [data_append] using h2
  omega

lemma append_ne_append_left {p q : String} (hlen : p.data.length = q.data.length)
    (hne : ¬ p = q) (x y : String) : ¬ (p ++ x = q ++ y) := by
  intro he
  apply hne
  have hd : p.data ++ x.data = q.data ++ y.data := by
    have h2 := congrArg String.data he
    simpa [data_append] using h2
  have hpq := List.append_inj_left hd hlen
  cases p
  cases q
  exact congrArg String.mk hpq

@[simp] lemma nwplcy_ne_FORWARD (a b c : String) :
    ¬ (networkPolicyChainName a b c = "FORWARD") := append_ne_short (by decide) _

@[simp] lemma nwplcy_ne_OUTPUT (a b c : String) :
    ¬ (networkPolicyChainName a b c = "OUTPUT") := append_ne_short (by decide) _

@[simp] lemma nwplcy_ne_INPUT (a b c : String) :
    ¬ (networkPolicyChainName a b c = "INPUT") := append_ne_short (by decide) _

@[simp] lemma nwplcy_ne_NFLOG (a b c : String) :
    ¬ (networkPolicyChainName a b c = "NFLOG") := append_ne_short (by decide) _

@[simp] lemma nwplcy_ne_REJECT (a b c : String) :
    ¬ (networkPolicyChainName a b c = "REJECT") := append_ne_short (by decide) _

@[simp] lemma FORWARD_ne_nwplcy (a b c : String) :
    ¬ ("FORWARD" = networkPolicyChainName a b c) := fun h => nwplcy_ne_FORWARD a b c h.symm

@[simp] lemma OUTPUT_ne_nwplcy (a b c : String) :
    ¬ ("OUTPUT" = networkPolicyChainName a b c) := fun h => nwplcy_ne_OUTPUT a b c h.symm

@[simp] lemma INPUT_ne_nwplcy (a b c : String) :
    ¬ ("INPUT" = networkPolicyChainName a b c) := fun h => nwplcy_ne_INPUT a b c h.symm

@[simp] lemma NFLOG_ne_nwplcy (a b c : String) :
    ¬ ("NFLOG" = networkPolicyChainName a b c) := fun h => nwplcy_ne_NFLOG a b c h.symm

@[simp] lemma REJECT_ne_nwplcy (a b c : String) :
    ¬ ("REJECT" = networkPolicyChainName a b c) := fun h => nwplcy_ne_REJECT a b c h.symm

@[simp] lemma podfw_ne_FORWARD (a b c : String) :
    ¬ (podFirewallChainName a b c = "FORWARD") := append_ne_short (by decide) _

@[simp] lemma podfw_ne_OUTPUT (a b c : String) :
    ¬ (podFirewallChainName a b c = "OUTPUT") := append_ne_short (by decide) _

@[simp] lemma podfw_ne_INPUT (a b c : String) :
    ¬ (podFirewallChainName a b c = "INPUT") := append_ne_short (by decide) _

@[simp] lemma FORWARD_ne_podfw (a b c : String) :
    ¬ ("FORWARD" = podFirewallChainName a b c) := fun h => podfw_ne_FORWARD a b c h.symm

@[simp] lemma OUTPUT_ne_podfw (a b c : String) :
    ¬ ("OUTPUT" = podFirewallChainName a b c) := fun h => podfw_ne_OUTPUT a b c h.symm

@[simp] lemma INPUT_ne_podfw (a b c : String) :
    ¬ ("INPUT" = podFirewallChainName a b c) := fun h => podfw_ne_INPUT a b c h.symm

@[simp] lemma nwplcy_ne_podfw (a b c d e f : String) :
    ¬ (networkPolicyChainName a b c = podFirewallChainName d e f) :=
  append_ne_append_left (by decide) (by decide) _ _

@[simp] lemma podfw_ne_nwplcy (a b c d e f : String) :
    ¬ (podFirewallChainName a b c = networkPolicyChainName d e f) :=
  fun h => nwplcy_ne_podfw d e f a b c h.symm

lemma hasPrefixL_append_eq (p : List Char) :
    ∀ (q x : List Char), p.length = q.length → hasPrefixL p (q ++ x) = hasPrefixL p q := by
  induction p with
  | nil => intro q x _; simp [hasPrefixL]
  | cons a as ih =>
    intro q x h
    cases q with
    | nil => exact absurd h (by simp)
    | cons b bs =>
      have h2 : as.length = bs.length := by simpa using h
      simp only [List.cons_append, hasPrefixL, List.append_eq, ih bs x h2]

@[simp] lemma nwplcyPrefix_on_nwplcy (a b c : String) :
    strHasPrefix kubeNetworkPolicyChainPrefix (networkPolicyChainName a b c) = true := by
  show hasPrefixL _ (kubeNetworkPolicyChainPrefix ++ hashedSuffix (a ++ b ++ c)).data = true
  rw [data_append]
  exact hasPrefixL_self_append _ _

@[simp] lemma podfwPrefix_on_podfw (a b c : String) :
    strHasPrefix kubePodFirewallChainPrefix (podFirewallChainName a b c) = true := by
  show hasPrefixL _ (kubePodFirewallChainPrefix ++ hashedSuffix (a ++ b ++ c)).data = true
  rw [data_append]
  exact hasPrefixL_self_append _ _

@[simp] lemma nwplcyPrefix_on_podfw (a b c : String) :
    strHasPrefix kubeNetworkPolicyChainPrefix (podFirewallChainName a b c) = false := by
  show hasPrefixL _ (kubePodFirewallChainPrefix ++ hashedSuffix (a ++ b ++ c)).data = false
  rw [data_append, hasPrefixL_append_eq _ _ _ (by decide)]
  decide

@[simp] lemma podfwPrefix_on_nwplcy (a b c : String) :
    strHasPrefix kubePodFirewallChainPrefix (networkPolicyChainName a b c) = false := by
  show hasPrefixL _ (kubeNetworkPolicyChainPrefix ++ hashedSuffix (a ++ b ++ c)).data = false
  rw [data_append, hasPrefixL_append_eq _ _ _ (by decide)]
  decide

@[simp] lemma dstPrefix_on_dstSet (a b : String) :
    strHasPrefix kubeDestinationIpSetPrefix (policyDestinationPodIpSetName a b) = true := by
  show hasPrefixL _ (kubeDestinationIpSetPrefix ++ hashedSuffix (a ++ b)).data = true
  rw [data_append]
  exact hasPrefixL_self_append _ _

@[simp] lemma srcPrefix_on_dstSet (a b : String) :
    strHasPrefix kubeSourceIpSetPrefix (policyDestinationPodIpSetName a b) = false := by
  show hasPrefixL _ (kubeDestinationIpSetPrefix ++ hashedSuffix (a ++ b)).data = false
  rw [data_append, hasPrefixL_append_eq _ _ _ (by decide)]
  decide

@[simp] lemma nwplcyPrefix_on_FORWARD :
    strHasPrefix kubeNetworkPolicyChainPrefix "FORWARD" = false := by decide

@[simp] lemma nwplcyPrefix_on_OUTPUT :
    strHasPrefix kubeNetworkPolicyChainPrefix "OUTPUT" = false := by decide

@[simp] lemma nwplcyPrefix_on_INPUT :
    strHasPrefix kubeNetworkPolicyChainPrefix "INPUT" = false := by decide

@[simp] lemma podfwPrefix_on_FORWARD :
    strHasPrefix kubePodFirewallChainPrefix "FORWARD" = false := by decide

@[simp] lemma podfwPrefix_on_OUTPUT :
    strHasPrefix kubePodFirewallChainPrefix "OUTPUT" = false := by decide

@[simp] lemma podfwPrefix_on_INPUT :
    strHasPrefix kubePodFirewallChainPrefix "INPUT" = false := by decide

@[simp] lemma beq_false_of_ne {α : Type u} [BEq α] [LawfulBEq α] {a b : α} (h : ¬ a = b) :
    (a == b) = false := by simp [h]

lemma beq_eq_decide {α : Type} [DecidableEq α] [BEq α] [LawfulBEq α] (a b : α) :
    (a == b) = decide (a = b) := by
  by_cases h : a = b <;> simp [h]

lemma any_beq_eq_mem (l : List String) (s : String) : l.any (· == s) = decide (s ∈ l) := by
  induction l with
  | nil => simp
  | cons x xs ih =>
    simp only [List.any_cons, ih, List.mem_cons]
    by_cases h : x = s
    · subst h; simp
    · have h' : ¬(s = x) := fun hh => h hh.symm
      simp [h, h']

lemma buildPolicyTypeFlags (l : List String) (a b : Bool) :
    l.foldl (fun (acc : Bool × Bool) t => (acc.1 || t == "Ingress", acc.2 || t == "Egress"))
        (a, b) =
      (a || l.any (· == "Ingress"), b || l.any (· == "Egress")) := by
  induction l generalizing a b with
  | nil => simp
  | cons x xs ih => simp [ih, Bool.or_assoc]

lemma find?_append_singleton {α : Type} (l : List α) (p : α → Bool) (x : α)
    (hx : p x = true) : ((l ++ [x]).find? p).isSome = true := by
  induction l with
  | nil => simp [List.find?, hx]
  | cons a as ih =>
    by_cases h : p a
    · simp [List.find?, h]
    · rw [Bool.not_eq_true] at h
      simp only [List.cons_append, List.find?, h]
      exact ih

lemma findChain?_newChain (st : KernelState) (c : String) :
    (findChain? (newChain st c) c).isSome = true := by
  by_cases h : (findChain? st c).isSome
  · simp [newChain, h]
  · rw [Bool.not_eq_true] at h
    unfold newChain
    rw [if_neg (by simp [h])]
    have hf := find?_append_singleton st.filterChains
      (fun (e : String × List Rule) => e.1 == c) ((c, []) : String × List Rule) (by simp)
    unfold findChain?
    try dsimp only
    rcases ho : (st.filterChains ++ [((c, []) : String × List Rule)]).find?
        (fun e => e.1 == c) with _ | y
    · rw [ho] at hf
      simp at hf
    · simp [ho]

lemma newChain_ipsets (st : KernelState) (c : String) :
    (newChain st c).ipsets = st.ipsets := by
  unfold newChain
  by_cases h : (findChain? st c).isSome <;> simp [h]

lemma betaRule_fields (pods : List ApiPod) (policyNs : String) (m : NamedPort2eps)
    (spec : ApiBetaIngressRule) :
    (buildBetaIngressRule pods policyNs m spec).srcIPBlocks = [] ∧
    (buildBetaIngressRule pods policyNs m spec).matchAllSource = false ∧
    (buildBetaIngressRule pods policyNs m spec).matchAllPorts = false := by
  unfold buildBetaIngressRule
  rcases h : processBetaNetworkPolicyPorts spec.ports m with ⟨a, b⟩
  simp [h]

lemma podIngressEnabled_of_blank (P : NetworkPolicyInfo) (hty : P.policyType = "")
    (pod : ApiPod) : podIngressEnabled [P] pod = false := by
  simp [podIngressEnabled, hty]

lemma podEgressEnabled_of_blank (P : NetworkPolicyInfo) (hty : P.policyType = "")
    (pod : ApiPod) : podEgressEnabled [P] pod = false := by
  simp [podEgressEnabled, hty]

lemma getIngressEnabledLoop_const (policies : List NetworkPolicyInfo) (nodeIp : String)
    (h : ∀ pod, podIngressEnabled policies pod = false) :
    ∀ (pods : List ApiPod) (acc : List (String × PodInfo)),
      getIngressEnabledLoop policies nodeIp pods acc = acc := by
  intro pods
  induction pods with
  | nil => intro acc; rfl
  | cons pod rest ih =>
    intro acc
    unfold getIngressEnabledLoop
    by_cases hh : pod.hostIP ≠ nodeIp <;> simp [hh, h pod, ih]

lemma getEgressEnabledLoop_const (policies : List NetworkPolicyInfo) (nodeIp : String)
    (h : ∀ pod, podEgressEnabled policies pod = false) :
    ∀ (pods : List ApiPod) (acc : List (String × PodInfo)),
      getEgressEnabledLoop policies nodeIp pods acc = acc := by
  intro pods
  induction pods with
  | nil => intro acc; rfl
  | cons pod rest ih =>
    intro acc
    unfold getEgressEnabledLoop
    by_cases hh : pod.hostIP ≠ nodeIp <;> simp [hh, h pod, ih]

lemma isOk_bind {ε α β : Type} {e : Except ε α} {f : α → Except ε β}
    (he : ∃ a, e = .ok a) (hf : ∀ a, ∃ b, f a = .ok b) : ∃ b, (e >>= f) = .ok b := by
  obtain ⟨a, ha⟩ := he
  obtain ⟨b, hb⟩ := hf a
  exact ⟨b, by rw [ha]; exact hb⟩

lemma ipsetCreate_isOk (env : IpsetEnv) (st : KernelState) (n : String)
    (hc : env.createFails n = false) : ∃ st', ipsetCreate env st n = .ok st' := by
  unfold ipsetCreate
  rw [if_neg (by simp [hc])]
  by_cases h : st.ipsets.any (fun e => e.1 == n)
  · exact ⟨st, by rw [if_pos h]⟩
  · exact ⟨_, by rw [if_neg h]⟩

lemma emitIngressNamed_isOk (env : IpsetEnv) (hc : ∀ n, env.createFails n = false)
    (ns pn : String) (i : Nat) (ch cm src : String) :
    ∀ (eps : List EndPoints) (j : Nat) (st : KernelState),
      ∃ out, emitIngressNamedPortRules env ns pn i ch cm src j eps st = .ok out := by
  intro eps
  induction eps with
  | nil => exact fun j st => ⟨_, rfl⟩
  | cons ep rest ih =>
    intro j st
    unfold emitIngressNamedPortRules
    refine isOk_bind (ipsetCreate_isOk env st _ (hc _)) (fun st1 => ?_)
    exact isOk_bind (ih (j + 1) _) (fun _ => ⟨_, rfl⟩)

lemma emitEgressNamed_isOk (env : IpsetEnv) (hc : ∀ n, env.createFails n = false)
    (ns pn : String) (i : Nat) (ch cm src : String) :
    ∀ (eps : List EndPoints) (j : Nat) (st : KernelState),
      ∃ out, emitEgressNamedPortRules env ns pn i ch cm src j eps st = .ok out := by
  intro eps
  induction eps with
  | nil => exact fun j st => ⟨_, rfl⟩
  | cons ep rest ih =>
    intro j st
    unfold emitEgressNamedPortRules
    refine isOk_bind (ipsetCreate_isOk env st _ (hc _)) (fun st1 => ?_)
    exact isOk_bind (ih (j + 1) _) (fun _ => ⟨_, rfl⟩)

lemma ingressPodsBranch_isOk (env : IpsetEnv) (hc : ∀ n, env.createFails n = false)
    (p : NetworkPolicyInfo) (ch td : String) (i : Nat) (r : IngressRuleData)
    (st : KernelState) : ∃ out, ingressPodsBranch env p ch td i r st = .ok out := by
  unfold ingressPodsBranch
  by_cases h : r.srcPods.isEmpty
  · rw [if_pos h]; exact ⟨_, rfl⟩
  · rw [if_neg h]
    refine isOk_bind (ipsetCreate_isOk env st _ (hc _)) (fun st1 => ?_)
    exact isOk_bind (emitIngressNamed_isOk env hc _ _ _ _ _ _ _ 0 _)
      (fun b => by obtain ⟨st2, eN, sN⟩ := b; exact ⟨_, rfl⟩)

lemma ingressMatchAllBranch_isOk (env : IpsetEnv) (hc : ∀ n, env.createFails n = false)
    (p : NetworkPolicyInfo) (ch td : String) (i : Nat) (r : IngressRuleData)
    (st : KernelState) : ∃ out, ingressMatchAllBranch env p ch td i r st = .ok out := by
  unfold ingressMatchAllBranch
  by_cases h : r.matchAllSource && !r.matchAllPorts
  · rw [if_pos h]
    exact isOk_bind (emitIngressNamed_isOk env hc _ _ _ _ _ _ _ 0 _)
      (fun b => by obtain ⟨st2, eN, sN⟩ := b; exact ⟨_, rfl⟩)
  · rw [if_neg h]; exact ⟨_, rfl⟩

lemma ingressIpBlockPorts_isOk (env : IpsetEnv) (hc : ∀ n, env.createFails n = false)
    (p : NetworkPolicyInfo) (ch td : String) (i : Nat) (cs : String) (r : IngressRuleData)
    (st : KernelState) : ∃ out, ingressIpBlockPorts env p ch td i cs r st = .ok out := by
  unfold ingressIpBlockPorts
  by_cases h : !r.matchAllPorts
  · rw [if_pos h]
    exact isOk_bind (emitIngressNamed_isOk env hc _ _ _ _ _ _ _ 0 _)
      (fun b => by obtain ⟨st2, eN, sN⟩ := b; exact ⟨_, rfl⟩)
  · rw [if_neg h]; exact ⟨_, rfl⟩

lemma ingressIpBlockBranch_isOk (env : IpsetEnv) (hc : ∀ n, env.createFails n = false)
    (p : NetworkPolicyInfo) (ch td : String) (i : Nat) (r : IngressRuleData)
    (st : KernelState) : ∃ out, ingressIpBlockBranch env p ch td i r st = .ok out := by
  unfold ingressIpBlockBranch
  by_cases h : r.srcIPBlocks.isEmpty
  · rw [if_pos h]; exact ⟨_, rfl⟩
  · rw [if_neg h]
    refine isOk_bind (ipsetCreate_isOk env st _ (hc _)) (fun st1 => ?_)
    exact isOk_bind (ingressIpBlockPorts_isOk env hc p ch td i _ r _)
      (fun b => by obtain ⟨st2, eP, sN⟩ := b; exact ⟨_, rfl⟩)

lemma processOneIngressRule_isOk (env : IpsetEnv) (hc : ∀ n, env.createFails n = false)
    (p : NetworkPolicyInfo) (ch td : String) (i : Nat) (r : IngressRuleData)
    (st : KernelState) : ∃ out, processOneIngressRule env p ch td i r st = .ok out := by
  unfold processOneIngressRule
  refine isOk_bind (ingressPodsBranch_isOk env hc p ch td i r st) (fun a => ?_)
  obtain ⟨st1, e1, s1⟩ := a
  refine isOk_bind (ingressMatchAllBranch_isOk env hc p ch td i r st1) (fun b => ?_)
  obtain ⟨st2, e2, s2⟩ := b
  exact isOk_bind (ingressIpBlockBranch_isOk env hc p ch td i r _)
    (fun c => by obtain ⟨st4, e4, s4⟩ := c; exact ⟨_, rfl⟩)

lemma processIngressRuleList_isOk (env : IpsetEnv) (hc : ∀ n, env.createFails n = false)
    (p : NetworkPolicyInfo) (ch td : String) :
    ∀ (rs : List IngressRuleData) (i : Nat) (st : KernelState),
      ∃ out, processIngressRuleList env p ch td i rs st = .ok out := by
  intro rs
  induction rs with
  | nil => exact fun i st => ⟨_, rfl⟩
  | cons r rest ih =>
    intro i st
    unfold processIngressRuleList
    refine isOk_bind (processOneIngressRule_isOk env hc p ch td i r st) (fun a => ?_)
    obtain ⟨st1, e, s⟩ := a
    exact isOk_bind (ih (i + 1) st1) (fun b => by obtain ⟨st2, es, ss⟩ := b; exact ⟨_, rfl⟩)

lemma processIngressRules_isOk (env : IpsetEnv) (hc : ∀ n, env.createFails n = false)
    (p : NetworkPolicyInfo) (td ver : String) (st : KernelState) :
    ∃ out, processIngressRules env p td ver st = .ok out := by
  unfold processIngressRules
  cases p.ingressRules with
  | none => exact ⟨_, rfl⟩
  | some rs => exact processIngressRuleList_isOk env hc p _ td rs 0 st

lemma egressPodsBranch_isOk (env : IpsetEnv) (hc : ∀ n, env.createFails n = false)
    (p : NetworkPolicyInfo) (ch ts : String) (i : Nat) (r : EgressRuleData)
    (st : KernelState) : ∃ out, egressPodsBranch env p ch ts i r st = .ok out := by
  unfold egressPodsBranch
  by_cases h : r.dstPods.isEmpty
  · rw [if_pos h]; exact ⟨_, rfl⟩
  · rw [if_neg h]
    refine isOk_bind (ipsetCreate_isOk env st _ (hc _)) (fun st1 => ?_)
    exact isOk_bind (emitEgressNamed_isOk env hc _ _ _ _ _ _ _ 0 _)
      (fun b => by obtain ⟨st2, eN, sN⟩ := b; exact ⟨_, rfl⟩)

lemma egressIpBlockBranch_isOk (env : IpsetEnv) (hc : ∀ n, env.createFails n = false)
    (p : NetworkPolicyInfo) (ch ts : String) (i : Nat) (r : EgressRuleData)
    (st : KernelState) : ∃ out, egressIpBlockBranch env p ch ts i r st = .ok out := by
  unfold egressIpBlockBranch
  by_cases h : r.dstIPBlocks.isEmpty
  · rw [if_pos h]; exact ⟨_, rfl⟩
  · rw [if_neg h]
    exact isOk_bind (ipsetCreate_isOk env st _ (hc _)) (fun st1 => ⟨_, rfl⟩)

lemma processOneEgressRule_isOk (env : IpsetEnv) (hc : ∀ n, env.createFails n = false)
    (p : NetworkPolicyInfo) (ch ts : String) (i : Nat) (r : EgressRuleData)
    (st : KernelState) : ∃ out, processOneEgressRule env p ch ts i r st = .ok out := by
  unfold processOneEgressRule
  refine isOk_bind (egressPodsBranch_isOk env hc p ch ts i r st) (fun a => ?_)
  obtain ⟨st1, e1, s1⟩ := a
  exact isOk_bind (egressIpBlockBranch_isOk env hc p ch ts i r _)
    (fun c => by obtain ⟨st4, e4, s4⟩ := c; exact ⟨_, rfl⟩)

lemma processEgressRuleList_isOk (env : IpsetEnv) (hc : ∀ n, env.createFails n = false)
    (p : NetworkPolicyInfo) (ch ts : String) :
    ∀ (rs : List EgressRuleData) (i : Nat) (st : KernelState),
      ∃ out, processEgressRuleList env p ch ts i rs st = .ok out := by
  intro rs
  induction rs with
  | nil => exact fun i st => ⟨_, rfl⟩
  | cons r rest ih =>
    intro i st
    unfold processEgressRuleList
    refine isOk_bind (processOneEgressRule_isOk env hc p ch ts i r st) (fun a => ?_)
    obtain ⟨st1, e, s⟩ := a
    exact isOk_bind (ih (i + 1) st1) (fun b => by obtain ⟨st2, es, ss⟩ := b; exact ⟨_, rfl⟩)

lemma processEgressRules_isOk (env : IpsetEnv) (hc : ∀ n, env.createFails n = false)
    (p : NetworkPolicyInfo) (ts ver : String) (st : KernelState) :
    ∃ out, processEgressRules env p ts ver st = .ok out := by
  unfold processEgressRules
  cases p.egressRules with
  | none => exact ⟨_, rfl⟩
  | some rs => exact processEgressRuleList_isOk env hc p _ ts rs 0 st

lemma syncPolicyIngressPhase_isOk (env : IpsetEnv) (hc : ∀ n, env.createFails n = false)
    (p : NetworkPolicyInfo) (ver : String) (ips : List String) (st : KernelState)
    (aSets : List String) :
    ∃ out, syncPolicyIngressPhase env p ver ips st aSets = .ok out := by
  unfold syncPolicyIngressPhase
  by_cases h : p.policyType = "both" || p.policyType = "ingress"
  · rw [if_pos h]
    refine isOk_bind (ipsetCreate_isOk env _ _ (hc _)) (fun st1 => ?_)
    exact isOk_bind (processIngressRules_isOk env hc p _ ver _)
      (fun b => by obtain ⟨st2, e, s⟩ := b; exact ⟨_, rfl⟩)
  · rw [if_neg h]; exact ⟨_, rfl⟩

lemma syncPolicyEgressPhase_isOk (env : IpsetEnv) (hc : ∀ n, env.createFails n = false)
    (p : NetworkPolicyInfo) (ver : String) (ips : List String) (st : KernelState)
    (aSets : List String) :
    ∃ out, syncPolicyEgressPhase env p ver ips st aSets = .ok out := by
  unfold syncPolicyEgressPhase
  by_cases h : p.policyType = "both" || p.policyType = "egress"
  · rw [if_pos h]
    refine isOk_bind (ipsetCreate_isOk env _ _ (hc _)) (fun st1 => ?_)
    exact isOk_bind (processEgressRules_isOk env hc p _ ver _)
      (fun b => by obtain ⟨st2, e, s⟩ := b; exact ⟨_, rfl⟩)
  · rw [if_neg h]; exact ⟨_, rfl⟩

lemma syncPolicyLoop_isOk (env : IpsetEnv) (hc : ∀ n, env.createFails n = false)
    (ver : String) :
    ∀ (policies : List NetworkPolicyInfo) (st : KernelState)
      (aCh aSets : List String),
      ∃ out, syncPolicyLoop env ver policies st aCh aSets = .ok out := by
  intro policies
  induction policies with
  | nil => exact fun st aCh aSets => ⟨_, rfl⟩
  | cons p rest ih =>
    intro st aCh aSets
    unfold syncPolicyLoop
    refine isOk_bind (syncPolicyIngressPhase_isOk env hc p ver _ _ _) (fun a => ?_)
    obtain ⟨st3, aSets1⟩ := a
    refine isOk_bind (syncPolicyEgressPhase_isOk env hc p ver _ _ _) (fun b => ?_)
    obtain ⟨st6, aSets2⟩ := b
    exact ih _ _ _

lemma ok_bind {ε α β : Type} (a : α) (f : α → Except ε β) :
    (Except.ok a >>= f : Except ε β) = f a := rfl

lemma ipsetCreate_noFail (st : KernelState) (n : String) :
    ipsetCreate noFailEnv st n =
      .ok (if st.ipsets.any (fun e => e.1 == n) then st
           else { st with ipsets := st.ipsets ++ [(n, [])] }) := by
  by_cases h : st.ipsets.any (fun e => e.1 == n) <;> simp [ipsetCreate, noFailEnv, h]

lemma emitPortRules_emits (ch cm src dst : String) :
    ∀ (ports : List ProtocolAndPort) (st : KernelState),
      (emitPortRules ch cm src dst ports st).2 =
        ports.map (fun pp => ruleArgs cm src dst pp.protocol pp.port) := by
  intro ports
  induction ports with
  | nil => intro st; rfl
  | cons pp rest ih => intro st; simp [emitPortRules, emitRule, ih]

lemma bind_emits {ε : Type} {e : Except ε (KernelState × List Rule × List String)}
    {L1 : List Rule}
    (he : ∃ st1 sets1, e = .ok (st1, L1, sets1))
    {k : KernelState × List Rule × List String → Except ε (KernelState × List Rule × List String)}
    {L2 : List Rule}
    (hk : ∀ st1 sets1, ∃ st2 sets2, k (st1, L1, sets1) = .ok (st2, L2, sets2)) :
    ∃ st2 sets2, (e >>= k) = .ok (st2, L2, sets2) := by
  obtain ⟨st1, sets1, h1⟩ := he
  obtain ⟨st2, sets2, h2⟩ := hk st1 sets1
  exact ⟨st2, sets2, by rw [h1, ok_bind]; exact h2⟩

lemma emitEgressNamed_emits (ns pn : String) (i : Nat) (ch cm src : String) :
    ∀ (eps : List EndPoints) (j : Nat) (st : KernelState),
      ∃ st' sets, emitEgressNamedPortRules noFailEnv ns pn i ch cm src j eps st =
        .ok (st', specEgressNamedRules ns pn i cm src j eps, sets) := by
  intro eps
  induction eps with
  | nil => exact fun j st => ⟨st, [], rfl⟩
  | cons ep rest ih =>
    intro j st
    rw [emitEgressNamedPortRules, ipsetCreate_noFail, ok_bind]
    try dsimp only
    refine bind_emits (ih (j + 1) _) (fun st1 sets1 => ?_)
    exact ⟨st1, _ :: sets1, rfl⟩

lemma egressPodsBranch_emits (p : NetworkPolicyInfo) (ch ts : String) (i : Nat)
    (r : EgressRuleData) (st : KernelState) :
    ∃ st' sets, egressPodsBranch noFailEnv p ch ts i r st =
      .ok (st', specEgressChunk1 p ts i r, sets) := by
  unfold egressPodsBranch specEgressChunk1
  by_cases h : r.dstPods.isEmpty
  · rw [if_pos h, if_pos h]
    exact ⟨st, [], rfl⟩
  · rw [if_neg h, if_neg h]
    try dsimp only
    rw [ipsetCreate_noFail, ok_bind]
    try dsimp only
    refine bind_emits (emitEgressNamed_emits p.ns p.name i ch (egressComment1 p) ts
      r.namedPorts 0 _) (fun st1 sets1 => ?_)
    try dsimp only
    rw [emitPortRules_emits]
    by_cases hpn : r.ports.isEmpty && r.namedPorts.isEmpty
    · rw [if_pos hpn, if_pos hpn]
      exact ⟨_, _, rfl⟩
    · rw [if_neg hpn, if_neg hpn]
      exact ⟨_, _, rfl⟩

lemma egressMatchAllBranch_emits (p : NetworkPolicyInfo) (ch ts : String) (i : Nat)
    (r : EgressRuleData) (st : KernelState)
    (h : r.namedPorts = [] ∨ r.matchAllDestinations = false) :
    (egressMatchAllBranch p ch ts r st).2 = specEgressChunk2 p ts i r := by
  unfold egressMatchAllBranch specEgressChunk2
  by_cases hm : r.matchAllDestinations && !r.matchAllPorts
  · rw [if_pos hm, if_pos hm]
    have hne : r.namedPorts = [] := by
      rcases h with h | h
      · exact h
      · rw [h] at hm; simp at hm
    rw [hne, emitPortRules_emits]
    simp [specEgressNamedRules]
  · rw [if_neg hm, if_neg hm]

lemma egressMatchAllAllBranch_emits (p : NetworkPolicyInfo) (ch ts : String)
    (r : EgressRuleData) (st : KernelState) :
    (egressMatchAllAllBranch p ch ts r st).2 = specEgressChunk3 p ts r := by
  unfold egressMatchAllAllBranch specEgressChunk3
  by_cases hm : r.matchAllDestinations && r.matchAllPorts
  · rw [if_pos hm, if_pos hm]
    rfl
  · rw [if_neg hm, if_neg hm]

lemma egressIpBlockBranch_emits (p : NetworkPolicyInfo) (ch ts : String) (i : Nat)
    (r : EgressRuleData) (st : KernelState)
    (h : r.namedPorts = [] ∨ r.dstIPBlocks = []) :
    ∃ st' sets, egressIpBlockBranch noFailEnv p ch ts i r st =
      .ok (st', specEgressChunk4 p ts i r, sets) := by
  unfold egressIpBlockBranch specEgressChunk4
  by_cases hb : r.dstIPBlocks.isEmpty
  · rw [if_pos hb, if_pos hb]
    exact ⟨st, [], rfl⟩
  · rw [if_neg hb, if_neg hb]
    have hne : r.namedPorts = [] := by
      rcases h with h | h
      · exact h
      · rw [h] at hb; simp at hb
    try dsimp only
    rw [ipsetCreate_noFail, ok_bind]
    try dsimp only
    by_cases hap : r.matchAllPorts
    · have hnap : ¬((!r.matchAllPorts) = true) := by simp [hap]
      rw [if_neg hnap, if_neg hnap, if_pos hap, if_pos hap]
      exact ⟨_, _, rfl⟩
    · have hnap : (!r.matchAllPorts) = true := by simp [hap]
      rw [if_pos hnap, if_pos hnap, if_neg hap, if_neg hap, emitPortRules_emits, hne]
      simp only [specEgressNamedRules, List.append_nil]
      exact ⟨_, _, rfl⟩

lemma processOneEgressRule_emits (p : NetworkPolicyInfo) (ch ts : String) (i : Nat)
    (r : EgressRuleData) (st : KernelState)
    (h : r.namedPorts = [] ∨ (r.matchAllDestinations = false ∧ r.dstIPBlocks = [])) :
    ∃ st' sets, processOneEgressRule noFailEnv p ch ts i r st =
      .ok (st', specMirrorOneEgressRule p ts i r, sets) := by
  have h2 : r.namedPorts = [] ∨ r.matchAllDestinations = false := by
    rcases h with h | h
    · exact Or.inl h
    · exact Or.inr h.1
  have h4 : r.namedPorts = [] ∨ r.dstIPBlocks = [] := by
    rcases h with h | h
    · exact Or.inl h
    · exact Or.inr h.2
  unfold processOneEgressRule specMirrorOneEgressRule
  refine bind_emits (egressPodsBranch_emits p ch ts i r st) (fun st1 sets1 => ?_)
  try dsimp only
  rw [egressMatchAllBranch_emits p ch ts i r st1 h2,
    egressMatchAllAllBranch_emits p ch ts r ((egressMatchAllBranch p ch ts r st1).1)]
  refine bind_emits (egressIpBlockBranch_emits p ch ts i r _ h4) (fun st2 sets2 => ?_)
  exact ⟨st2, sets1 ++ sets2, rfl⟩

lemma processEgressRuleList_emits (p : NetworkPolicyInfo) (ch ts : String) :
    ∀ (rs : List EgressRuleData) (i : Nat) (st : KernelState),
      (∀ r ∈ rs, r.namedPorts = [] ∨ (r.matchAllDestinations = false ∧ r.dstIPBlocks = [])) →
      ∃ st' sets, processEgressRuleList noFailEnv p ch ts i rs st =
        .ok (st', specMirrorEgressLoop p ts i rs, sets) := by
  intro rs
  induction rs with
  | nil => exact fun i st _ => ⟨st, [], rfl⟩
  | cons r rest ih =>
    intro i st hall
    rw [processEgressRuleList, specMirrorEgressLoop]
    refine bind_emits
      (processOneEgressRule_emits p ch ts i r st (hall r (List.mem_cons_self r rest)))
      (fun st1 sets1 => ?_)
    try dsimp only
    refine bind_emits (ih (i + 1) _ (fun x hx => hall x (List.mem_cons_of_mem r hx)))
      (fun st2 sets2 => ?_)
    exact ⟨st2, sets1 ++ sets2, rfl⟩

lemma bind_ok_inv {ε α β : Type} {e : Except ε α} {f : α → Except ε β} {b : β}
    (h : (e >>= f) = .ok b) : ∃ a, e = .ok a ∧ f a = .ok b := by
  rcases e with err | a
  · rw [show (Except.error err >>= f : Except ε β) = .error err from rfl] at h
    exact Except.noConfusion h
  · exact ⟨a, rfl, h⟩

lemma map_fst_filter {α β : Type} (l : List (α × β)) (p : α → Bool) :
    (l.filter (fun e => p e.1)).map (fun e => e.1) = (l.map (fun e => e.1)).filter p := by
  induction l with
  | nil => rfl
  | cons x xs ih => by_cases h : p x.1 <;> simp [List.filter_cons, h, ih]

lemma chainNames_setChainRules (st : KernelState) (c : String) (rs : List Rule) :
    chainNames (setChainRules st c rs) = chainNames st := by
  unfold chainNames setChainRules
  simp only [List.map_map]
  refine List.map_congr_left (fun e _ => ?_)
  by_cases h : e.1 = c <;> simp [h]

lemma deleteRuleNum_pres {st st' : KernelState} {c : String} {n : Nat}
    (h : deleteRuleNum st c n = some st') :
    chainNames st' = chainNames st ∧ st'.ipsets = st.ipsets := by
  unfold deleteRuleNum at h
  rcases hf : findChain? st c with _ | rs
  · rw [hf] at h; exact Option.noConfusion h
  · rw [hf] at h
    try dsimp only at h
    by_cases hcond : 1 ≤ n ∧ n - 1 < rs.length
    · rw [if_pos hcond] at h
      injection h with h
      subst h
      exact ⟨chainNames_setChainRules _ _ _, rfl⟩
    · rw [if_neg hcond] at h; exact Option.noConfusion h

lemma deleteRefsScan_pres (target chain : String) :
    ∀ (rules : List Rule) (i rn : Nat) (st st' : KernelState),
      deleteRefsScan target chain rules i rn st = .ok st' →
      chainNames st' = chainNames st ∧ st'.ipsets = st.ipsets := by
  intro rules
  induction rules with
  | nil =>
    intro i rn st st' h
    injection h with h
    subst h
    exact ⟨rfl, rfl⟩
  | cons r rest ih =>
    intro i rn st st' h
    rw [deleteRefsScan] at h
    by_cases hm : ruleMentions r target
    · rw [if_pos hm] at h
      rcases hd : deleteRuleNum st chain (i - rn) with _ | st1
      · rw [hd] at h; exact Except.noConfusion h
      · rw [hd] at h
        try dsimp only at h
        obtain ⟨h1, h2⟩ := ih _ _ _ _ h
        obtain ⟨h3, h4⟩ := deleteRuleNum_pres hd
        exact ⟨h1.trans h3, h2.trans h4⟩
    · rw [if_neg hm] at h
      exact ih _ _ _ _ h

lemma deleteRefsFrom_pres {target chain : String} {st st' : KernelState}
    (h : deleteRefsFrom target chain st = .ok st') :
    chainNames st' = chainNames st ∧ st'.ipsets = st.ipsets := by
  unfold deleteRefsFrom at h
  rcases hl : listRules st chain with _ | rules
  · rw [hl] at h; exact Except.noConfusion h
  · rw [hl] at h
    try dsimp only at h
    exact deleteRefsScan_pres target chain rules 0 0 st st' h

lemma deleteRefsTopLevel_pres {target : String} {st st' : KernelState}
    (h : deleteRefsTopLevel target st = .ok st') :
    chainNames st' = chainNames st ∧ st'.ipsets = st.ipsets := by
  unfold deleteRefsTopLevel at h
  obtain ⟨st1, h1, h⟩ := bind_ok_inv h
  obtain ⟨st2, h2, h⟩ := bind_ok_inv h
  obtain ⟨a1, b1⟩ := deleteRefsFrom_pres h1
  obtain ⟨a2, b2⟩ := deleteRefsFrom_pres h2
  obtain ⟨a3, b3⟩ := deleteRefsFrom_pres h
  exact ⟨a3.trans (a2.trans a1), b3.trans (b2.trans b1)⟩

lemma phasePodFwRefs_pres :
    ∀ (L : List String) (st st' : KernelState),
      phasePodFwRefs L st = .ok st' →
      chainNames st' = chainNames st ∧ st'.ipsets = st.ipsets := by
  intro L
  induction L with
  | nil =>
    intro st st' h
    injection h with h
    subst h
    exact ⟨rfl, rfl⟩
  | cons c rest ih =>
    intro st st' h
    rw [phasePodFwRefs] at h
    obtain ⟨st1, h1, h⟩ := bind_ok_inv h
    obtain ⟨a1, b1⟩ := deleteRefsTopLevel_pres h1
    obtain ⟨a2, b2⟩ := ih _ _ h
    exact ⟨a2.trans a1, b2.trans b1⟩

lemma clearChain_names (st : KernelState) (c : String) :
    (chainNames (clearChain st c) = chainNames st ∨
      chainNames (clearChain st c) = chainNames st ++ [c]) ∧
    (clearChain st c).ipsets = st.ipsets := by
  unfold clearChain
  by_cases h : (findChain? st c).isSome
  · rw [if_pos h]
    exact ⟨Or.inl (chainNames_setChainRules _ _ _), rfl⟩
  · rw [if_neg h]
    constructor
    · right
      simp [chainNames]
    · rfl

lemma deleteChain_pres {st st' : KernelState} {c : String}
    (h : deleteChain st c = some st') :
    chainNames st' = (chainNames st).filter (fun x => !(x == c)) ∧
    st'.ipsets = st.ipsets := by
  unfold deleteChain at h
  rcases hf : findChain? st c with _ | rs
  · rw [hf] at h; exact Option.noConfusion h
  · rw [hf] at h
    try dsimp only at h
    by_cases hrs : rs = []
    · rw [if_pos hrs] at h
      injection h with h
      subst h
      exact ⟨map_fst_filter st.filterChains (fun x => !(x == c)), rfl⟩
    · rw [if_neg hrs] at h; exact Option.noConfusion h

lemma clearThenDelete_mem {c : String} {st st' : KernelState}
    (h : clearThenDelete c st = .ok st') :
    (∀ x ∈ chainNames st', x ∈ chainNames st ∧ ¬(x = c)) ∧
    st'.ipsets = st.ipsets := by
  unfold clearThenDelete at h
  rcases hd : deleteChain (clearChain st c) c with _ | st1
  · rw [hd] at h; exact Except.noConfusion h
  · rw [hd] at h
    try dsimp only at h
    injection h with h
    subst h
    obtain ⟨hnames, hips⟩ := deleteChain_pres hd
    obtain ⟨hcl, hclips⟩ := clearChain_names st c
    refine ⟨?_, hips.trans hclips⟩
    intro x hx
    rw [hnames] at hx
    rw [List.mem_filter] at hx
    obtain ⟨hx1, hx2⟩ := hx
    have hne : ¬(x = c) := by simpa using hx2
    rcases hcl with hcl | hcl
    · rw [hcl] at hx1
      exact ⟨hx1, hne⟩
    · rw [hcl] at hx1
      rcases List.mem_append.mp hx1 with hx1 | hx1
      · exact ⟨hx1, hne⟩
      · exact absurd (List.mem_singleton.mp hx1) hne

lemma phaseClearDelete_mem :
    ∀ (L : List String) (st st' : KernelState),
      phaseClearDelete L st = .ok st' →
      (∀ x ∈ chainNames st', x ∈ chainNames st ∧ x ∉ L) ∧
      st'.ipsets = st.ipsets := by
  intro L
  induction L with
  | nil =>
    intro st st' h
    injection h with h
    subst h
    exact ⟨fun x hx => ⟨hx, by simp⟩, rfl⟩
  | cons c rest ih =>
    intro st st' h
    rw [phaseClearDelete] at h
    obtain ⟨st1, h1, h⟩ := bind_ok_inv h
    obtain ⟨m1, i1⟩ := clearThenDelete_mem h1
    obtain ⟨m2, i2⟩ := ih _ _ h
    refine ⟨?_, i2.trans i1⟩
    intro x hx
    obtain ⟨hx1, hx2⟩ := m2 x hx
    obtain ⟨hx3, hx4⟩ := m1 x hx1
    refine ⟨hx3, ?_⟩
    rw [List.mem_cons]
    rintro (hc | hc)
    · exact hx4 hc
    · exact hx2 hc

lemma deleteFirstPolicyRef_pres {pc pfc : String} {st st' : KernelState}
    (h : deleteFirstPolicyRef pc pfc st = .ok st') :
    chainNames st' = chainNames st ∧ st'.ipsets = st.ipsets := by
  unfold deleteFirstPolicyRef at h
  rcases hl : listRules st pfc with _ | rules
  · rw [hl] at h
    try dsimp only at h
    injection h with h
    subst h
    exact ⟨rfl, rfl⟩
  · rw [hl] at h
    try dsimp only at h
    rcases hi : rules.findIdx? (fun r => ruleMentions r pc) with _ | i
    · rw [hi] at h
      try dsimp only at h
      injection h with h
      subst h
      exact ⟨rfl, rfl⟩
    · rw [hi] at h
      try dsimp only at h
      rcases hd : deleteRuleNum st pfc i with _ | st1
      · rw [hd] at h; exact Except.noConfusion h
      · rw [hd] at h
        try dsimp only at h
        injection h with h
        subst h
        exact deleteRuleNum_pres hd

lemma phasePolicyRefs_pres (pc : String) :
    ∀ (L : List String) (st st' : KernelState),
      phasePolicyRefs pc L st = .ok st' →
      chainNames st' = chainNames st ∧ st'.ipsets = st.ipsets := by
  intro L
  induction L with
  | nil =>
    intro st st' h
    injection h with h
    subst h
    exact ⟨rfl, rfl⟩
  | cons c rest ih =>
    intro st st' h
    rw [phasePolicyRefs] at h
    obtain ⟨st1, h1, h⟩ := bind_ok_inv h
    obtain ⟨a1, b1⟩ := deleteFirstPolicyRef_pres h1
    obtain ⟨a2, b2⟩ := ih _ _ h
    exact ⟨a2.trans a1, b2.trans b1⟩

lemma phasePolicyChains_mem (aPod : List String) :
    ∀ (L : List String) (st st' : KernelState),
      phasePolicyChains aPod L st = .ok st' →
      (∀ x ∈ chainNames st', x ∈ chainNames st ∧ x ∉ L) ∧
      st'.ipsets = st.ipsets := by
  intro L
  induction L with
  | nil =>
    intro st st' h
    injection h with h
    subst h
    exact ⟨fun x hx => ⟨hx, by simp⟩, rfl⟩
  | cons pc rest ih =>
    intro st st' h
    rw [phasePolicyChains] at h
    obtain ⟨st1, h1, h⟩ := bind_ok_inv h
    obtain ⟨st2, h2, h⟩ := bind_ok_inv h
    obtain ⟨a1, b1⟩ := phasePolicyRefs_pres pc _ _ _ h1
    obtain ⟨m2, i2⟩ := clearThenDelete_mem h2
    obtain ⟨m3, i3⟩ := ih _ _ h
    refine ⟨?_, (i3.trans i2).trans b1⟩
    intro x hx
    obtain ⟨hx1, hx2⟩ := m3 x hx
    obtain ⟨hx3, hx4⟩ := m2 x hx1
    rw [a1] at hx3
    refine ⟨hx3, ?_⟩
    rw [List.mem_cons]
    rintro (hc | hc)
    · exact hx4 hc
    · exact hx2 hc

lemma ipsetDestroy_pres {st st' : KernelState} {s : String}
    (h : ipsetDestroy st s = some st') :
    st'.filterChains = st.filterChains ∧
    ipsetNames st' = (ipsetNames st).filter (fun x => !(x == s)) := by
  unfold ipsetDestroy at h
  by_cases ha : st.ipsets.any (fun e => e.1 == s)
  · rw [if_pos ha] at h
    injection h with h
    subst h
    exact ⟨rfl, map_fst_filter st.ipsets (fun x => !(x == s))⟩
  · rw [if_neg ha] at h; exact Option.noConfusion h

lemma phaseDestroyIpsets_mem :
    ∀ (L : List String) (st st' : KernelState),
      phaseDestroyIpsets L st = .ok st' →
      (∀ y ∈ ipsetNames st', y ∈ ipsetNames st ∧ y ∉ L) ∧
      st'.filterChains = st.filterChains := by
  intro L
  induction L with
  | nil =>
    intro st st' h
    injection h with h
    subst h
    exact ⟨fun y hy => ⟨hy, by simp⟩, rfl⟩
  | cons s rest ih =>
    intro st st' h
    rw [phaseDestroyIpsets] at h
    rcases hd : ipsetDestroy st s with _ | st1
    · rw [hd] at h; exact Except.noConfusion h
    · rw [hd] at h
      try dsimp only at h
      obtain ⟨hch, hset⟩ := ipsetDestroy_pres hd
      obtain ⟨m2, c2⟩ := ih _ _ h
      refine ⟨?_, c2.trans hch⟩
      intro y hy
      obtain ⟨hy1, hy2⟩ := m2 y hy
      rw [hset, List.mem_filter] at hy1
      obtain ⟨hy3, hy4⟩ := hy1
      have hne : ¬(y = s) := by simpa using hy4
      refine ⟨hy3, ?_⟩
      rw [List.mem_cons]
      rintro (hc | hc)
      · exact hne hc
      · exact hy2 hc

lemma c2IngressPods (ns pn podName ip nodeIp : String) :
    getIngressNetworkPolicyEnabledPods [c2Policy ns pn podName ip] [c2Pod ns podName ip nodeIp]
      nodeIp = [(ip, ⟨ip, podName, ns, []⟩)] := by
  simp [getIngressNetworkPolicyEnabledPods, getIngressEnabledLoop, podIngressEnabled,
    assocPut, apiPodInfo, c2Policy, c2Pod]

lemma c2EgressPods (ns pn podName ip nodeIp : String) :
    getEgressNetworkPolicyEnabledPods [c2Policy ns pn podName ip] [c2Pod ns podName ip nodeIp]
      nodeIp = [] := by
  simp [getEgressNetworkPolicyEnabledPods, getEgressEnabledLoop, podEgressEnabled,
    assocPut, apiPodInfo, c2Policy, c2Pod]

lemma c2Phase1 (ns pn podName ip ver : String) :
    syncNetworkPolicyChains noFailEnv [c2Policy ns pn podName ip] ver baseState =
      .ok (⟨[("FORWARD", []),
        ("OUTPUT", []),
        ("INPUT", []),
        (networkPolicyChainName ns pn ver, [])],
       [(policyDestinationPodIpSetName ns pn, [[ip, "timeout", "0"]])]⟩,
           [networkPolicyChainName ns pn ver],
           [policyDestinationPodIpSetName ns pn]) := by
  simp [syncNetworkPolicyChains, syncPolicyLoop, syncPolicyIngressPhase, syncPolicyEgressPhase,
    processIngressRules, newChain, findChain?, setChainRules, ipsetCreate, ipsetRefresh,
    ipRows, noFailEnv, c2Policy, baseState, List.find?_cons_of_neg, List.find?_cons_of_pos,
    bind, Except.bind]

lemma c2Step1 (ns pn podName ip ver : String) : newChain
      ⟨[("FORWARD", []),
        ("OUTPUT", []),
        ("INPUT", []),
        (networkPolicyChainName ns pn ver, [])],
       [(policyDestinationPodIpSetName ns pn, [[ip, "timeout", "0"]])]⟩
      (podFirewallChainName ns podName ver) =
      ⟨[("FORWARD", []),
        ("OUTPUT", []),
        ("INPUT", []),
        (networkPolicyChainName ns pn ver, []),
        (podFirewallChainName ns podName ver, [])],
       [(policyDestinationPodIpSetName ns pn, [[ip, "timeout", "0"]])]⟩ := by
  simp [newChain, findChain?, List.find?_cons_of_neg, List.find?_cons_of_pos]

lemma c2Step2 (ns pn podName ip ver : String) :
    installPolicyJumps [c2Policy ns pn podName ip] ver (podFirewallChainName ns podName ver) ip
      ⟨[("FORWARD", []),
        ("OUTPUT", []),
        ("INPUT", []),
        (networkPolicyChainName ns pn ver, []),
        (podFirewallChainName ns podName ver, [])],
       [(policyDestinationPodIpSetName ns pn, [[ip, "timeout", "0"]])]⟩ =
      ⟨[("FORWARD", []),
        ("OUTPUT", []),
        ("INPUT", []),
        (networkPolicyChainName ns pn ver, []),
        (podFirewallChainName ns podName ver, [jumpRule pn (networkPolicyChainName ns pn ver)])],
       [(policyDestinationPodIpSetName ns pn, [[ip, "timeout", "0"]])]⟩ := by
  simp [installPolicyJumps, c2Policy, ensureRuleFirst, existsRule, findChain?, insertRuleAt, insertIdxRule, setChainRules, appendUnique, List.find?_cons_of_neg, List.find?_cons_of_pos, List.contains_cons, jumpRule, localSourceRule, conntrackRule, nflogRule, rejectRule, ingressDivertRule, ingressPhysdevRule, ingressDivertComment]

lemma c2Step3 (ns pn podName ip ver : String) : ensureRuleFirst
      ⟨[("FORWARD", []),
        ("OUTPUT", []),
        ("INPUT", []),
        (networkPolicyChainName ns pn ver, []),
        (podFirewallChainName ns podName ver, [jumpRule pn (networkPolicyChainName ns pn ver)])],
       [(policyDestinationPodIpSetName ns pn, [[ip, "timeout", "0"]])]⟩
      (podFirewallChainName ns podName ver) (localSourceRule ip) =
      ⟨[("FORWARD", []),
        ("OUTPUT", []),
        ("INPUT", []),
        (networkPolicyChainName ns pn ver, []),
        (podFirewallChainName ns podName ver, [localSourceRule ip, jumpRule pn (networkPolicyChainName ns pn ver)])],
       [(policyDestinationPodIpSetName ns pn, [[ip, "timeout", "0"]])]⟩ := by
  simp [ensureRuleFirst, existsRule, findChain?, insertRuleAt, insertIdxRule, setChainRules, appendUnique, List.find?_cons_of_neg, List.find?_cons_of_pos, List.contains_cons, jumpRule, localSourceRule, conntrackRule, nflogRule, rejectRule, ingressDivertRule, ingressPhysdevRule, ingressDivertComment]

lemma c2Step4 (ns pn podName ip ver : String) : ensureRuleFirst
      ⟨[("FORWARD", []),
        ("OUTPUT", []),
        ("INPUT", []),
        (networkPolicyChainName ns pn ver, []),
        (podFirewallChainName ns podName ver, [localSourceRule ip, jumpRule pn (networkPolicyChainName ns pn ver)])],
       [(policyDestinationPodIpSetName ns pn, [[ip, "timeout", "0"]])]⟩
      (podFirewallChainName ns podName ver) conntrackRule =
      ⟨[("FORWARD", []),
        ("OUTPUT", []),
        ("INPUT", []),
        (networkPolicyChainName ns pn ver, []),
        (podFirewallChainName ns podName ver, [conntrackRule, localSourceRule ip, jumpRule pn (networkPolicyChainName ns pn ver)])],
       [(policyDestinationPodIpSetName ns pn, [[ip, "timeout", "0"]])]⟩ := by
  simp [ensureRuleFirst, existsRule, findChain?, insertRuleAt, insertIdxRule, setChainRules, appendUnique, List.find?_cons_of_neg, List.find?_cons_of_pos, List.contains_cons, jumpRule, localSourceRule, conntrackRule, nflogRule, rejectRule, ingressDivertRule, ingressPhysdevRule, ingressDivertComment]

lemma c2Step5 (ns pn podName ip ver : String) : ensureRuleFirst
      ⟨[("FORWARD", []),
        ("OUTPUT", []),
        ("INPUT", []),
        (networkPolicyChainName ns pn ver, []),
        (podFirewallChainName ns podName ver, [conntrackRule, localSourceRule ip, jumpRule pn (networkPolicyChainName ns pn ver)])],
       [(policyDestinationPodIpSetName ns pn, [[ip, "timeout", "0"]])]⟩
      "FORWARD" (ingressDivertRule (⟨ip, podName, ns, []⟩ : PodInfo) (podFirewallChainName ns podName ver)) =
      ⟨[("FORWARD", [ingressDivertRule (⟨ip, podName, ns, []⟩ : PodInfo) (podFirewallChainName ns podName ver)]),
        ("OUTPUT", []),
        ("INPUT", []),
        (networkPolicyChainName ns pn ver, []),
        (podFirewallChainName ns podName ver, [conntrackRule, localSourceRule ip, jumpRule pn (networkPolicyChainName ns pn ver)])],
       [(policyDestinationPodIpSetName ns pn, [[ip, "timeout", "0"]])]⟩ := by
  simp [ensureRuleFirst, existsRule, findChain?, insertRuleAt, insertIdxRule, setChainRules, appendUnique, List.find?_cons_of_neg, List.find?_cons_of_pos, List.contains_cons, jumpRule, localSourceRule, conntrackRule, nflogRule, rejectRule, ingressDivertRule, ingressPhysdevRule, ingressDivertComment]

lemma c2Step6 (ns pn podName ip ver : String) : ensureRuleFirst
      ⟨[("FORWARD", [ingressDivertRule (⟨ip, podName, ns, []⟩ : PodInfo) (podFirewallChainName ns podName ver)]),
        ("OUTPUT", []),
        ("INPUT", []),
        (networkPolicyChainName ns pn ver, []),
        (podFirewallChainName ns podName ver, [conntrackRule, localSourceRule ip, jumpRule pn (networkPolicyChainName ns pn ver)])],
       [(policyDestinationPodIpSetName ns pn, [[ip, "timeout", "0"]])]⟩
      "OUTPUT" (ingressDivertRule (⟨ip, podName, ns, []⟩ : PodInfo) (podFirewallChainName ns podName ver)) =
      ⟨[("FORWARD", [ingressDivertRule (⟨ip, podName, ns, []⟩ : PodInfo) (podFirewallChainName ns podName ver)]),
        ("OUTPUT", [ingressDivertRule (⟨ip, podName, ns, []⟩ : PodInfo) (podFirewallChainName ns podName ver)]),
        ("INPUT", []),
        (networkPolicyChainName ns pn ver, []),
        (podFirewallChainName ns podName ver, [conntrackRule, localSourceRule ip, jumpRule pn (networkPolicyChainName ns pn ver)])],
       [(policyDestinationPodIpSetName ns pn, [[ip, "timeout", "0"]])]⟩ := by
  simp [ensureRuleFirst, existsRule, findChain?, insertRuleAt, insertIdxRule, setChainRules, appendUnique, List.find?_cons_of_neg, List.find?_cons_of_pos, List.contains_cons, jumpRule, localSourceRule, conntrackRule, nflogRule, rejectRule, ingressDivertRule, ingressPhysdevRule, ingressDivertComment]

lemma c2Step7 (ns pn podName ip ver : String) : ensureRuleFirst
      ⟨[("FORWARD", [ingressDivertRule (⟨ip, podName, ns, []⟩ : PodInfo) (podFirewallChainName ns podName ver)]),
        ("OUTPUT", [ingressDivertRule (⟨ip, podName, ns, []⟩ : PodInfo) (podFirewallChainName ns podName ver)]),
        ("INPUT", []),
        (networkPolicyChainName ns pn ver, []),
        (podFirewallChainName ns podName ver, [conntrackRule, localSourceRule ip, jumpRule pn (networkPolicyChainName ns pn ver)])],
       [(policyDestinationPodIpSetName ns pn, [[ip, "timeout", "0"]])]⟩
      "FORWARD" (ingressPhysdevRule (⟨ip, podName, ns, []⟩ : PodInfo) (podFirewallChainName ns podName ver)) =
      ⟨[("FORWARD", [ingressPhysdevRule (⟨ip, podName, ns, []⟩ : PodInfo) (podFirewallChainName ns podName ver), ingressDivertRule (⟨ip, podName, ns, []⟩ : PodInfo) (podFirewallChainName ns podName ver)]),
        ("OUTPUT", [ingressDivertRule (⟨ip, podName, ns, []⟩ : PodInfo) (podFirewallChainName ns podName ver)]),
        ("INPUT", []),
        (networkPolicyChainName ns pn ver, []),
        (podFirewallChainName ns podName ver, [conntrackRule, localSourceRule ip, jumpRule pn (networkPolicyChainName ns pn ver)])],
       [(policyDestinationPodIpSetName ns pn, [[ip, "timeout", "0"]])]⟩ := by
  simp [ensureRuleFirst, existsRule, findChain?, insertRuleAt, insertIdxRule, setChainRules, appendUnique, List.find?_cons_of_neg, List.find?_cons_of_pos, List.contains_cons, jumpRule, localSourceRule, conntrackRule, nflogRule, rejectRule, ingressDivertRule, ingressPhysdevRule, ingressDivertComment]

lemma c2Step8 (ns pn podName ip ver : String) : appendUnique
      ⟨[("FORWARD", [ingressPhysdevRule (⟨ip, podName, ns, []⟩ : PodInfo) (podFirewallChainName ns podName ver), ingressDivertRule (⟨ip, podName, ns, []⟩ : PodInfo) (podFirewallChainName ns podName ver)]),
        ("OUTPUT", [ingressDivertRule (⟨ip, podName, ns, []⟩ : PodInfo) (podFirewallChainName ns podName ver)]),
        ("INPUT", []),
        (networkPolicyChainName ns pn ver, []),
        (podFirewallChainName ns podName ver, [conntrackRule, localSourceRule ip, jumpRule pn (networkPolicyChainName ns pn ver)])],
       [(policyDestinationPodIpSetName ns pn, [[ip, "timeout", "0"]])]⟩
      (podFirewallChainName ns podName ver) (nflogRule (⟨ip, podName, ns, []⟩ : PodInfo)) =
      ⟨[("FORWARD", [ingressPhysdevRule (⟨ip, podName, ns, []⟩ : PodInfo) (podFirewallChainName ns podName ver), ingressDivertRule (⟨ip, podName, ns, []⟩ : PodInfo) (podFirewallChainName ns podName ver)]),
        ("OUTPUT", [ingressDivertRule (⟨ip, podName, ns, []⟩ : PodInfo) (podFirewallChainName ns podName ver)]),
        ("INPUT", []),
        (networkPolicyChainName ns pn ver, []),
        (podFirewallChainName ns podName ver, [conntrackRule, localSourceRule ip, jumpRule pn (networkPolicyChainName ns pn ver), nflogRule (⟨ip, podName, ns, []⟩ : PodInfo)])],
       [(policyDestinationPodIpSetName ns pn, [[ip, "timeout", "0"]])]⟩ := by
  simp [ensureRuleFirst, existsRule, findChain?, insertRuleAt, insertIdxRule, setChainRules, appendUnique, List.find?_cons_of_neg, List.find?_cons_of_pos, List.contains_cons, jumpRule, localSourceRule, conntrackRule, nflogRule, rejectRule, ingressDivertRule, ingressPhysdevRule, ingressDivertComment]

lemma c2Step9 (ns pn podName ip ver : String) : appendUnique
      ⟨[("FORWARD", [ingressPhysdevRule (⟨ip, podName, ns, []⟩ : PodInfo) (podFirewallChainName ns podName ver), ingressDivertRule (⟨ip, podName, ns, []⟩ : PodInfo) (podFirewallChainName ns podName ver)]),
        ("OUTPUT", [ingressDivertRule (⟨ip, podName, ns, []⟩ : PodInfo) (podFirewallChainName ns podName ver)]),
        ("INPUT", []),
        (networkPolicyChainName ns pn ver, []),
        (podFirewallChainName ns podName ver, [conntrackRule, localSourceRule ip, jumpRule pn (networkPolicyChainName ns pn ver), nflogRule (⟨ip, podName, ns, []⟩ : PodInfo)])],
       [(policyDestinationPodIpSetName ns pn, [[ip, "timeout", "0"]])]⟩
      (podFirewallChainName ns podName ver) (rejectRule (⟨ip, podName, ns, []⟩ : PodInfo)) =
      ⟨[("FORWARD", [ingressPhysdevRule (⟨ip, podName, ns, []⟩ : PodInfo) (podFirewallChainName ns podName ver), ingressDivertRule (⟨ip, podName, ns, []⟩ : PodInfo) (podFirewallChainName ns podName ver)]),
        ("OUTPUT", [ingressDivertRule (⟨ip, podName, ns, []⟩ : PodInfo) (podFirewallChainName ns podName ver)]),
        ("INPUT", []),
        (networkPolicyChainName ns pn ver, []),
        (podFirewallChainName ns podName ver, [conntrackRule, localSourceRule ip, jumpRule pn (networkPolicyChainName ns pn ver), nflogRule (⟨ip, podName, ns, []⟩ : PodInfo), rejectRule (⟨ip, podName, ns, []⟩ : PodInfo)])],
       [(policyDestinationPodIpSetName ns pn, [[ip, "timeout", "0"]])]⟩ := by
  simp [ensureRuleFirst, existsRule, findChain?, insertRuleAt, insertIdxRule, setChainRules, appendUnique, List.find?_cons_of_neg, List.find?_cons_of_pos, List.contains_cons, jumpRule, localSourceRule, conntrackRule, nflogRule, rejectRule, ingressDivertRule, ingressPhysdevRule, ingressDivertComment]

lemma c2Phase2 (ns pn podName ip nodeIp ver : String) (hip : ¬ ip = "") :
    syncPodFirewallChains [c2Policy ns pn podName ip] [c2Pod ns podName ip nodeIp] nodeIp ver
      ⟨[("FORWARD", []),
        ("OUTPUT", []),
        ("INPUT", []),
        (networkPolicyChainName ns pn ver, [])],
       [(policyDestinationPodIpSetName ns pn, [[ip, "timeout", "0"]])]⟩ =
      (⟨[("FORWARD", [ingressPhysdevRule (⟨ip, podName, ns, []⟩ : PodInfo) (podFirewallChainName ns podName ver), ingressDivertRule (⟨ip, podName, ns, []⟩ : PodInfo) (podFirewallChainName ns podName ver)]),
        ("OUTPUT", [ingressDivertRule (⟨ip, podName, ns, []⟩ : PodInfo) (podFirewallChainName ns podName ver)]),
        ("INPUT", []),
        (networkPolicyChainName ns pn ver, []),
        (podFirewallChainName ns podName ver, [conntrackRule, localSourceRule ip, jumpRule pn (networkPolicyChainName ns pn ver), nflogRule (⟨ip, podName, ns, []⟩ : PodInfo), rejectRule (⟨ip, podName, ns, []⟩ : PodInfo)])],
       [(policyDestinationPodIpSetName ns pn, [[ip, "timeout", "0"]])]⟩,
       [podFirewallChainName ns podName ver]) := by
  have hpods := c2IngressPods ns pn podName ip nodeIp
  have hepods := c2EgressPods ns pn podName ip nodeIp
  simp only [syncPodFirewallChains, hpods, hepods, List.map, podFwIngressLoop, podFwEgressLoop,
    hip, ite_false, List.nil_append]
  rw [c2Step1 ns pn podName ip ver, c2Step2 ns pn podName ip ver, c2Step3 ns pn podName ip ver,
    c2Step4 ns pn podName ip ver, c2Step5 ns pn podName ip ver, c2Step6 ns pn podName ip ver,
    c2Step7 ns pn podName ip ver, c2Step8 ns pn podName ip ver, c2Step9 ns pn podName ip ver]

lemma c2Phase3 (ns pn podName ip ver : String) :
    cleanupStaleRules
      ⟨[("FORWARD", [ingressPhysdevRule (⟨ip, podName, ns, []⟩ : PodInfo) (podFirewallChainName ns podName ver), ingressDivertRule (⟨ip, podName, ns, []⟩ : PodInfo) (podFirewallChainName ns podName ver)]),
        ("OUTPUT", [ingressDivertRule (⟨ip, podName, ns, []⟩ : PodInfo) (podFirewallChainName ns podName ver)]),
        ("INPUT", []),
        (networkPolicyChainName ns pn ver, []),
        (podFirewallChainName ns podName ver, [conntrackRule, localSourceRule ip, jumpRule pn (networkPolicyChainName ns pn ver), nflogRule (⟨ip, podName, ns, []⟩ : PodInfo), rejectRule (⟨ip, podName, ns, []⟩ : PodInfo)])],
       [(policyDestinationPodIpSetName ns pn, [[ip, "timeout", "0"]])]⟩
      [networkPolicyChainName ns pn ver] [podFirewallChainName ns podName ver] [policyDestinationPodIpSetName ns pn] =
      .ok
      ⟨[("FORWARD", [ingressPhysdevRule (⟨ip, podName, ns, []⟩ : PodInfo) (podFirewallChainName ns podName ver), ingressDivertRule (⟨ip, podName, ns, []⟩ : PodInfo) (podFirewallChainName ns podName ver)]),
        ("OUTPUT", [ingressDivertRule (⟨ip, podName, ns, []⟩ : PodInfo) (podFirewallChainName ns podName ver)]),
        ("INPUT", []),
        (networkPolicyChainName ns pn ver, []),
        (podFirewallChainName ns podName ver, [conntrackRule, localSourceRule ip, jumpRule pn (networkPolicyChainName ns pn ver), nflogRule (⟨ip, podName, ns, []⟩ : PodInfo), rejectRule (⟨ip, podName, ns, []⟩ : PodInfo)])],
       [(policyDestinationPodIpSetName ns pn, [[ip, "timeout", "0"]])]⟩ := by
  simp [cleanupStaleRules, chainNames, List.filter_cons, List.contains_cons,
    phasePodFwRefs, phaseClearDelete, phasePolicyChains, phaseDestroyIpsets,
    bind, Except.bind]

lemma c2Assembled (ns pn podName ip nodeIp ver : String) (hip : ¬ ip = "") :
    SyncModel noFailEnv [c2Policy ns pn podName ip] [c2Pod ns podName ip nodeIp]
        nodeIp ver baseState =
      .ok
      ⟨[("FORWARD", [ingressPhysdevRule (⟨ip, podName, ns, []⟩ : PodInfo) (podFirewallChainName ns podName ver), ingressDivertRule (⟨ip, podName, ns, []⟩ : PodInfo) (podFirewallChainName ns podName ver)]),
        ("OUTPUT", [ingressDivertRule (⟨ip, podName, ns, []⟩ : PodInfo) (podFirewallChainName ns podName ver)]),
        ("INPUT", []),
        (networkPolicyChainName ns pn ver, []),
        (podFirewallChainName ns podName ver, [conntrackRule, localSourceRule ip, jumpRule pn (networkPolicyChainName ns pn ver), nflogRule (⟨ip, podName, ns, []⟩ : PodInfo), rejectRule (⟨ip, podName, ns, []⟩ : PodInfo)])],
       [(policyDestinationPodIpSetName ns pn, [[ip, "timeout", "0"]])]⟩ := by
  simp only [SyncModel, c2Phase1 ns pn podName ip ver, bind, Except.bind]
  rw [c2Phase2 ns pn podName ip nodeIp ver hip]
  exact c2Phase3 ns pn podName ip ver

/-! ## Claim theorems -/

/-- C1: after a cleanup pass that completes without error (the last phase
of every successful reconcile), no chain on the filter table whose name
begins with `KUBE-NWPLCY-` or `KUBE-POD-FW-` remains unless it is in the
corresponding active-chain set built during the reconcile, and no ipset
whose name begins with `KUBE-SRC-` or `KUBE-DST-` remains unless it is in
the active ipset set. -/
theorem c1_stale_cleanup (st st' : KernelState) (aPol aPod aSets : List String)
    (h : cleanupStaleRules st aPol aPod aSets = .ok st') :
    (∀ c ∈ chainNames st',
      (strHasPrefix kubeNetworkPolicyChainPrefix c = true → c ∈ aPol) ∧
      (strHasPrefix kubePodFirewallChainPrefix c = true → c ∈ aPod)) ∧
    (∀ s ∈ ipsetNames st',
      (strHasPrefix kubeSourceIpSetPrefix s = true ∨
        strHasPrefix kubeDestinationIpSetPrefix s = true) → s ∈ aSets) := by
  unfold cleanupStaleRules at h
  try dsimp only at h
  obtain ⟨st1, h1, h⟩ := bind_ok_inv h
  obtain ⟨st2, h2, h⟩ := bind_ok_inv h
  obtain ⟨st3, h3, h⟩ := bind_ok_inv h
  obtain ⟨n1, i1⟩ := phasePodFwRefs_pres _ _ _ h1
  obtain ⟨m2, i2⟩ := phaseClearDelete_mem _ _ _ h2
  obtain ⟨m3, i3⟩ := phasePolicyChains_mem aPod _ _ _ h3
  obtain ⟨m4, c4⟩ := phaseDestroyIpsets_mem _ _ _ h
  constructor
  · intro c hc
    have hc3 : c ∈ chainNames st3 := by
      unfold chainNames at hc ⊢
      rw [c4] at hc
      exact hc
    obtain ⟨hc2, hnotPC⟩ := m3 c hc3
    obtain ⟨hc1, hnotFW⟩ := m2 c hc2
    rw [n1] at hc1
    constructor
    · intro hpre
      by_contra hna
      apply hnotPC
      refine List.mem_filter.mpr ⟨hc1, ?_⟩
      simp [hpre, hna]
    · intro hpre
      by_contra hna
      apply hnotFW
      refine List.mem_filter.mpr ⟨hc1, ?_⟩
      simp [hpre, hna]
  · intro s hs
    obtain ⟨hs3, hnotIPS⟩ := m4 s hs
    have hs0 : s ∈ ipsetNames st := by
      unfold ipsetNames at hs3 ⊢
      rw [i3, i2, i1] at hs3
      exact hs3
    intro hpre
    by_contra hna
    apply hnotIPS
    refine List.mem_filter.mpr ⟨hs0, ?_⟩
    rcases hpre with hpre | hpre <;> simp [hpre, hna]

theorem c1_witness :
    cleanupStaleRules c1State [] [] ["KUBE-DST-KEEP"] =
      .ok ⟨[("FORWARD", []), ("OUTPUT", []), ("INPUT", [])], [("KUBE-DST-KEEP", [])]⟩ ∧
    (∀ c ∈ chainNames
        (⟨[("FORWARD", []), ("OUTPUT", []), ("INPUT", [])],
          [("KUBE-DST-KEEP", [])]⟩ : KernelState),
      (strHasPrefix kubeNetworkPolicyChainPrefix c = true → c ∈ ([] : List String)) ∧
      (strHasPrefix kubePodFirewallChainPrefix c = true → c ∈ ([] : List String))) ∧
    (∀ s ∈ ipsetNames
        (⟨[("FORWARD", []), ("OUTPUT", []), ("INPUT", [])],
          [("KUBE-DST-KEEP", [])]⟩ : KernelState),
      (strHasPrefix kubeSourceIpSetPrefix s = true ∨
        strHasPrefix kubeDestinationIpSetPrefix s = true) → s ∈ ["KUBE-DST-KEEP"]) :=
  ⟨by decide,
    c1_stale_cleanup c1State _ [] [] ["KUBE-DST-KEEP"] (by decide)⟩

/-- C3 (amended): egress rule materialization mirrors ingress
materialization — source match = the policy's target-source set,
destination match = the rule's resolved set — for the resolved-peer-pods
cases (numeric ports, named ports, no ports) and for the numeric-port and
all-port cases of the matchAll and CIDR branches; the egress side emits no
named-port rules in the matchAll and CIDR branches, so the mirror is exact
exactly when the rule has no named ports or has only resolved peer pods
(no matchAll, no CIDR blocks). -/
theorem c3_egress_mirror (p : NetworkPolicyInfo) (tgtSrc ver : String) (st : KernelState)
    (rs : List EgressRuleData) (hrs : p.egressRules = some rs)
    (h : ∀ r ∈ rs, r.namedPorts = [] ∨ (r.matchAllDestinations = false ∧ r.dstIPBlocks = [])) :
    egressEmits p tgtSrc ver st = specMirrorEgressEmits p tgtSrc rs := by
  unfold egressEmits processEgressRules specMirrorEgressEmits
  rw [hrs]
  try dsimp only
  obtain ⟨st', sets, hl⟩ := processEgressRuleList_emits p
    (networkPolicyChainName p.ns p.name ver) tgtSrc rs 0 st h
  rw [hl]

theorem c3_witness :
    egressEmits
        ⟨"p", "ns", [], none,
         some [⟨false, [], [⟨["10.9.9.9"], "tcp", "8080"⟩], false,
               [⟨"10.1.1.2", "d", "ns", []⟩], []⟩], "egress"⟩
        "TS" "v" baseState =
      specMirrorEgressEmits
        ⟨"p", "ns", [], none,
         some [⟨false, [], [⟨["10.9.9.9"], "tcp", "8080"⟩], false,
               [⟨"10.1.1.2", "d", "ns", []⟩], []⟩], "egress"⟩
        "TS"
        [⟨false, [], [⟨["10.9.9.9"], "tcp", "8080"⟩], false,
          [⟨"10.1.1.2", "d", "ns", []⟩], []⟩] :=
  c3_egress_mirror _ "TS" "v" baseState _ rfl (by decide)

/-- C3 counterexample: an egress rule with match-all destinations, no
numeric ports and one named port emits nothing, while the mirrored ingress
materialization emits one named-port rule; the egress side has no
named-port counterpart in the matchAll (or CIDR) branch. -/
theorem c3_counterexample :
    egressEmits c3BreakingPolicy "KUBE-SRC-TEST" "v" baseState = [] ∧
    specMirrorEgressEmits c3BreakingPolicy "KUBE-SRC-TEST"
        [⟨false, [], [⟨["10.1.1.1"], "tcp", "8080"⟩], true, [], []⟩] ≠ [] := by
  exact ⟨by decide, by decide⟩

/-- C4 (amended): `readyForUpdates` starts false and becomes true after
the first reconcile *attempt*, whether or not it succeeded; while it is
false every event callback returns without invoking `Sync`; once it is
true, the pod and network-policy callbacks each invoke one reconcile, and
the namespace callbacks do so only in legacy (beta) schema mode, being
unconditional no-ops in current-schema mode. -/
theorem c4_ready_for_updates (s : NpcState) (ok : Bool) :
    (runIteration ok s).readyForUpdates = true ∧
    (initNpcState s.v1NetworkPolicy).readyForUpdates = false ∧
    (s.readyForUpdates = false →
      onPodUpdate s = s ∧ onNetworkPolicyUpdate s = s ∧ onNamespaceUpdate s = s ∧
      handlePodDelete s = s ∧ handleNetworkPolicyDelete s = s ∧ handleNamespaceDelete s = s) ∧
    (s.readyForUpdates = true →
      (onPodUpdate s).syncCalls = s.syncCalls + 1 ∧
      (onNetworkPolicyUpdate s).syncCalls = s.syncCalls + 1 ∧
      (handlePodDelete s).syncCalls = s.syncCalls + 1 ∧
      (handleNetworkPolicyDelete s).syncCalls = s.syncCalls + 1 ∧
      (s.v1NetworkPolicy = false →
        (onNamespaceUpdate s).syncCalls = s.syncCalls + 1 ∧
        (handleNamespaceDelete s).syncCalls = s.syncCalls + 1) ∧
      (s.v1NetworkPolicy = true →
        onNamespaceUpdate s = s ∧ handleNamespaceDelete s = s)) := by
  obtain ⟨r, v1, sc, hb⟩ := s
  refine ⟨by cases ok <;> rfl, rfl, ?_, ?_⟩
  · intro h
    simp only at h
    subst h
    exact ⟨rfl, rfl, by cases v1 <;> rfl, rfl, rfl, by cases v1 <;> rfl⟩
  · intro h
    simp only at h
    subst h
    refine ⟨rfl, rfl, rfl, rfl, ?_, ?_⟩ <;> intro hv <;> simp only at hv <;> subst hv
    · exact ⟨rfl, rfl⟩
    · exact ⟨rfl, rfl⟩

theorem c4_witness : (onPodUpdate ⟨true, false, 3, 1⟩).syncCalls = 3 + 1 :=
  ((c4_ready_for_updates ⟨true, false, 3, 1⟩ true).2.2.2 rfl).1

/-- C4 counterexample: the claim says `readyForUpdates` becomes true only
after the first reconcile that *succeeds*. After a first `Run` iteration
whose `Sync` fails (no heartbeat is sent), the flag is nevertheless true
and a pod callback already invokes `Sync`. -/
theorem c4_counterexample :
    (runIteration false (initNpcState true)).readyForUpdates = true ∧
    (runIteration false (initNpcState true)).heartbeats = 0 ∧
    (onPodUpdate (runIteration false (initNpcState true))).syncCalls =
      (runIteration false (initNpcState true)).syncCalls + 1 := by
  decide

/-- C5 (amended): during rule materialization a *refresh* failure of any
ipset is only logged and the reconcile continues — with no create
failures, `syncNetworkPolicyChains` succeeds whatever `refreshFails` says;
a *create* failure, by contrast, aborts the reconcile with an error. -/
theorem c5_refresh_failures_nonfatal (env : IpsetEnv)
    (hc : ∀ n, env.createFails n = false) (policies : List NetworkPolicyInfo)
    (ver : String) (st : KernelState) :
    ∃ out, syncNetworkPolicyChains env policies ver st = .ok out :=
  syncPolicyLoop_isOk env hc ver policies st [] []

theorem c5_witness :
    (∀ n, noFailEnv.createFails n = false) ∧
    ∃ out, syncNetworkPolicyChains noFailEnv [c5Policy] "v" baseState = .ok out :=
  ⟨fun _ => rfl, c5_refresh_failures_nonfatal noFailEnv (fun _ => rfl) [c5Policy] "v" baseState⟩

/-- C5 counterexample: the claim says Sync never returns an error merely
because an ipset create call failed. With an ipset driver whose create
calls fail transiently, the reconcile of a single deny-all ingress policy
aborts with the creation error for the policy's target destination set. -/
theorem c5_counterexample :
    SyncModel allCreateFailEnv [c5Policy] [] "10.0.0.1" "v" baseState =
      .error ("failed to create ipset: " ++ policyDestinationPodIpSetName "ns" "p") := by
  decide

/-- C6: for a peer carrying only an IPBlock with CIDR `0.0.0.0/0` and
except list `[10.0.0.0/8]`, the refresh input computed for the rule's CIDR
ipset is exactly the two half-space entries with timeout 0 followed by the
except entry flagged `nomatch`. -/
theorem c6_open_cidr_except (b : IPBlockSpec)
    (hc : b.cidr = "0.0.0.0/0") (hx : b.except = ["10.0.0.0/8"]) :
    evalIPBlockPeer ⟨none, none, some b⟩ =
      [["0.0.0.0/1", "timeout", "0"], ["128.0.0.0/1", "timeout", "0"],
       ["10.0.0.0/8", "timeout", "0", "nomatch"]] := by
  obtain ⟨c, ex⟩ := b
  simp only at hc hx
  subst hc hx
  decide

theorem c6_witness :
    (IPBlockSpec.mk "0.0.0.0/0" ["10.0.0.0/8"]).cidr = "0.0.0.0/0" ∧
    evalIPBlockPeer ⟨none, none, some ⟨"0.0.0.0/0", ["10.0.0.0/8"]⟩⟩ =
      [["0.0.0.0/1", "timeout", "0"], ["128.0.0.0/1", "timeout", "0"],
       ["10.0.0.0/8", "timeout", "0", "nomatch"]] :=
  ⟨rfl, c6_open_cidr_except ⟨"0.0.0.0/0", ["10.0.0.0/8"]⟩ rfl rfl⟩

/-- C8 (amended): the current-schema builder resolves the policy kind to
"both" when both types are declared, "egress"/"ingress" when only that
type is declared, and for a policy declaring neither type it always
resolves to "ingress" (the field's initial value), regardless of which
rule kinds are present in the policy. -/
theorem c8_policy_kind_resolution (l : List String) :
    buildPolicyType l =
      if "Ingress" ∈ l then (if "Egress" ∈ l then "both" else "ingress")
      else if "Egress" ∈ l then "egress" else "ingress" := by
  unfold buildPolicyType
  rw [buildPolicyTypeFlags, any_beq_eq_mem, any_beq_eq_mem]
  by_cases hi : "Ingress" ∈ l <;> by_cases he : "Egress" ∈ l <;> simp [hi, he]

/-- C8 counterexample: a legacy policy declaring no policy types whose
only rules are egress rules resolves to "ingress", not to the kind
actually present (egress). -/
theorem c8_counterexample :
    (buildNetworkPolicy [] [] c8LegacyPolicy).policyType = "ingress" ∧
    (buildNetworkPolicy [] [] c8LegacyPolicy).ingressRules = none ∧
    (buildNetworkPolicy [] [] c8LegacyPolicy).egressRules =
      some [⟨true, [], [], true, [], []⟩] ∧
    ("ingress" : String) ≠ "egress" := by
  refine ⟨rfl, rfl, rfl, by decide⟩

/-- C10: the peer evaluator's full-open test is purely textual — any CIDR
string ending in "/0" (for any network address, not only 0.0.0.0/0) is
replaced by the two half-space entries, and the same suffix test governs
each except entry, which becomes the same two entries flagged `nomatch`. -/
theorem c10_suffix_not_value_test (s t u : String)
    (hu : strHasSuffix "/0" u = false) :
    evalIPBlockPeer ⟨none, none, some ⟨s ++ "/0", [t ++ "/0", u]⟩⟩ =
      [["0.0.0.0/1", "timeout", "0"], ["128.0.0.0/1", "timeout", "0"],
       ["0.0.0.0/1", "timeout", "0", "nomatch"], ["128.0.0.0/1", "timeout", "0", "nomatch"],
       [u, "timeout", "0", "nomatch"]] := by
  simp [evalIPBlockPeer, strHasSuffix_append, hu]

/-- C7: every chain- and ipset-name derivation function returns its
component's fixed prefix followed by exactly the first 16 characters of
the base32 encoding of the SHA-256 digest of its input bytes (the
concatenation of its arguments, with the fixed tags and decimal rule/port
indices of the indexed variants); each name has a fixed total length
(prefix length + 16) of at most 31 characters, and equal inputs always
give equal names. -/
theorem c7_name_derivation (ns p v ns' p' v' : String) (i j i' j' : Nat)
    (hns : ns = ns') (hp : p = p') (hv : v = v') (hi : i = i') (hj : j = j') :
    (podFirewallChainName ns p v =
        "KUBE-POD-FW-" ++ String.mk ((base32Encode (sha256Bytes (strBytes (ns ++ p ++ v)))).take 16) ∧
      networkPolicyChainName ns p v =
        "KUBE-NWPLCY-" ++ String.mk ((base32Encode (sha256Bytes (strBytes (ns ++ p ++ v)))).take 16) ∧
      policySourcePodIpSetName ns p =
        "KUBE-SRC-" ++ String.mk ((base32Encode (sha256Bytes (strBytes (ns ++ p)))).take 16) ∧
      policyDestinationPodIpSetName ns p =
        "KUBE-DST-" ++ String.mk ((base32Encode (sha256Bytes (strBytes (ns ++ p)))).take 16) ∧
      policyIndexedSourcePodIpSetName ns p i =
        "KUBE-SRC-" ++ String.mk ((base32Encode (sha256Bytes (strBytes (ns ++ p ++ "ingressrule" ++ toString i ++ "pod")))).take 16) ∧
      policyIndexedDestinationPodIpSetName ns p i =
        "KUBE-DST-" ++ String.mk ((base32Encode (sha256Bytes (strBytes (ns ++ p ++ "egressrule" ++ toString i ++ "pod")))).take 16) ∧
      policyIndexedSourceIpBlockIpSetName ns p i =
        "KUBE-SRC-" ++ String.mk ((base32Encode (sha256Bytes (strBytes (ns ++ p ++ "ingressrule" ++ toString i ++ "ipblock")))).take 16) ∧
      policyIndexedDestinationIpBlockIpSetName ns p i =
        "KUBE-DST-" ++ String.mk ((base32Encode (sha256Bytes (strBytes (ns ++ p ++ "egressrule" ++ toString i ++ "ipblock")))).take 16) ∧
      policyIndexedIngressNamedPortIpSetName ns p i j =
        "KUBE-DST-" ++ String.mk ((base32Encode (sha256Bytes (strBytes (ns ++ p ++ "ingressrule" ++ toString i ++ toString j ++ "namedport")))).take 16) ∧
      policyIndexedEgressNamedPortIpSetName ns p i j =
        "KUBE-DST-" ++ String.mk ((base32Encode (sha256Bytes (strBytes (ns ++ p ++ "egressrule" ++ toString i ++ toString j ++ "namedport")))).take 16)) ∧
    ((podFirewallChainName ns p v).length = 28 ∧
      (networkPolicyChainName ns p v).length = 28 ∧
      (policySourcePodIpSetName ns p).length = 25 ∧
      (policyDestinationPodIpSetName ns p).length = 25 ∧
      (policyIndexedSourcePodIpSetName ns p i).length = 25 ∧
      (policyIndexedDestinationPodIpSetName ns p i).length = 25 ∧
      (policyIndexedSourceIpBlockIpSetName ns p i).length = 25 ∧
      (policyIndexedDestinationIpBlockIpSetName ns p i).length = 25 ∧
      (policyIndexedIngressNamedPortIpSetName ns p i j).length = 25 ∧
      (policyIndexedEgressNamedPortIpSetName ns p i j).length = 25) ∧
    ((podFirewallChainName ns p v).length ≤ 31 ∧
      (networkPolicyChainName ns p v).length ≤ 31 ∧
      (policyIndexedIngressNamedPortIpSetName ns p i j).length ≤ 31 ∧
      (policyIndexedEgressNamedPortIpSetName ns p i j).length ≤ 31 ∧
      (policySourcePodIpSetName ns p).length ≤ 31 ∧
      (policyDestinationPodIpSetName ns p).length ≤ 31 ∧
      (policyIndexedSourcePodIpSetName ns p i).length ≤ 31 ∧
      (policyIndexedDestinationPodIpSetName ns p i).length ≤ 31 ∧
      (policyIndexedSourceIpBlockIpSetName ns p i).length ≤ 31 ∧
      (policyIndexedDestinationIpBlockIpSetName ns p i).length ≤ 31) ∧
    (podFirewallChainName ns p v = podFirewallChainName ns' p' v' ∧
      networkPolicyChainName ns p v = networkPolicyChainName ns' p' v' ∧
      policySourcePodIpSetName ns p = policySourcePodIpSetName ns' p' ∧
      policyDestinationPodIpSetName ns p = policyDestinationPodIpSetName ns' p' ∧
      policyIndexedSourcePodIpSetName ns p i = policyIndexedSourcePodIpSetName ns' p' i' ∧
      policyIndexedDestinationPodIpSetName ns p i = policyIndexedDestinationPodIpSetName ns' p' i' ∧
      policyIndexedSourceIpBlockIpSetName ns p i = policyIndexedSourceIpBlockIpSetName ns' p' i' ∧
      policyIndexedDestinationIpBlockIpSetName ns p i = policyIndexedDestinationIpBlockIpSetName ns' p' i' ∧
      policyIndexedIngressNamedPortIpSetName ns p i j = policyIndexedIngressNamedPortIpSetName ns' p' i' j' ∧
      policyIndexedEgressNamedPortIpSetName ns p i j = policyIndexedEgressNamedPortIpSetName ns' p' i' j') := by
  subst hns hp hv hi hj
  refine ⟨⟨rfl, rfl, rfl, rfl, rfl, rfl, rfl, rfl, rfl, rfl⟩,
    ⟨rfl, rfl, rfl, rfl, rfl, rfl, rfl, rfl, rfl, rfl⟩, ?_,
    ⟨rfl, rfl, rfl, rfl, rfl, rfl, rfl, rfl, rfl, rfl⟩⟩
  have h1 : (podFirewallChainName ns p v).length = 28 := rfl
  have h2 : (networkPolicyChainName ns p v).length = 28 := rfl
  have h3 : (policySourcePodIpSetName ns p).length = 25 := rfl
  have h4 : (policyDestinationPodIpSetName ns p).length = 25 := rfl
  have h5 : (policyIndexedSourcePodIpSetName ns p i).length = 25 := rfl
  have h6 : (policyIndexedDestinationPodIpSetName ns p i).length = 25 := rfl
  have h7 : (policyIndexedSourceIpBlockIpSetName ns p i).length = 25 := rfl
  have h8 : (policyIndexedDestinationIpBlockIpSetName ns p i).length = 25 := rfl
  have h9 : (policyIndexedIngressNamedPortIpSetName ns p i j).length = 25 := rfl
  have h10 : (policyIndexedEgressNamedPortIpSetName ns p i j).length = 25 := rfl
  refine ⟨?_, ?_, ?_, ?_, ?_, ?_, ?_, ?_, ?_, ?_⟩ <;> omega

theorem c7_witness :
    ("default" : String) = "default" ∧
    (podFirewallChainName "default" "web" "1571728849999999999").length ≤ 31 :=
  ⟨rfl,
    ((c7_name_derivation "default" "web" "1571728849999999999" "default" "web"
        "1571728849999999999" 0 0 0 0 rfl rfl rfl rfl rfl).2.2.1).1⟩

/-- C9: a policy produced by the legacy (beta-schema) builder has an empty
policy-type string, no egress rules (nil), and every ingress rule has no
CIDR-block entries and `matchAllSource`/`matchAllPorts` false; a reconcile
of such a policy creates its per-policy chain but creates neither target
ipset (the active ipset list stays empty and the kernel ipsets are
untouched), and the pod classifiers enable no pod on its account. -/
theorem c9_beta_builder (pods pods2 : List ApiPod) (bp : ApiBetaNetworkPolicy)
    (env : IpsetEnv) (ver nodeIp : String) (st : KernelState) :
    (buildBetaNetworkPolicy pods bp).policyType = "" ∧
    (buildBetaNetworkPolicy pods bp).egressRules = none ∧
    ((buildBetaNetworkPolicy pods bp).ingressRules.getD []).all
      (fun r => r.srcIPBlocks.isEmpty && !r.matchAllSource && !r.matchAllPorts) = true ∧
    syncNetworkPolicyChains env [buildBetaNetworkPolicy pods bp] ver st =
      .ok (newChain st (networkPolicyChainName bp.ns bp.name ver),
           [networkPolicyChainName bp.ns bp.name ver], []) ∧
    (findChain? (newChain st (networkPolicyChainName bp.ns bp.name ver))
        (networkPolicyChainName bp.ns bp.name ver)).isSome = true ∧
    (newChain st (networkPolicyChainName bp.ns bp.name ver)).ipsets = st.ipsets ∧
    getIngressNetworkPolicyEnabledPods [buildBetaNetworkPolicy pods bp] pods2 nodeIp = [] ∧
    getEgressNetworkPolicyEnabledPods [buildBetaNetworkPolicy pods bp] pods2 nodeIp = [] := by
  refine ⟨rfl, rfl, ?_, ?_, findChain?_newChain st _, newChain_ipsets st _, ?_, ?_⟩
  · have key : ∀ (m : NamedPort2eps),
        (bp.ingress.map (buildBetaIngressRule pods bp.ns m)).all
          (fun r => r.srcIPBlocks.isEmpty && !r.matchAllSource && !r.matchAllPorts) = true := by
      intro m
      refine List.all_eq_true.mpr (fun r hr => ?_)
      obtain ⟨spec, -, rfl⟩ := List.mem_map.mp hr
      obtain ⟨h1, h2, h3⟩ := betaRule_fields pods bp.ns m spec
      simp [h1, h2, h3]
    exact key _
  · rfl
  · exact getIngressEnabledLoop_const _ nodeIp
      (fun pod => podIngressEnabled_of_blank _ rfl pod) pods2 []
  · exact getEgressEnabledLoop_const _ nodeIp
      (fun pod => podEgressEnabled_of_blank _ rfl pod) pods2 []

theorem c10_witness :
    strHasSuffix "/0" "10.0.0.0/8" = false ∧
    evalIPBlockPeer ⟨none, none, some ⟨"10.0.0.0" ++ "/0", ["172.16.0.0" ++ "/0", "10.0.0.0/8"]⟩⟩ =
      [["0.0.0.0/1", "timeout", "0"], ["128.0.0.0/1", "timeout", "0"],
       ["0.0.0.0/1", "timeout", "0", "nomatch"], ["128.0.0.0/1", "timeout", "0", "nomatch"],
       ["10.0.0.0/8", "timeout", "0", "nomatch"]] :=
  ⟨by decide, c10_suffix_not_value_test "10.0.0.0" "172.16.0.0" "10.0.0.0/8" (by decide)⟩

/-- C2 (corrected): for a deny-all policy — ingress kind, nil ingress rule
list — over one local target pod, a reconcile from the base state succeeds,
the policy chain exists and is empty, and the pod firewall chain holds
exactly the stateful-conntrack ACCEPT, the LOCAL-source ACCEPT, the jump
into the (empty) policy chain, the NFLOG rule and the final REJECT — i.e.
the claimed four rules plus a jump rule into the policy chain, which the
claim asserted absent. -/
theorem c2_deny_all (ns pn podName ip nodeIp ver : String) (hip : ¬ ip = "") :
    ∃ st', SyncModel noFailEnv [c2Policy ns pn podName ip] [c2Pod ns podName ip nodeIp]
        nodeIp ver baseState = .ok st' ∧
      findChain? st' (networkPolicyChainName ns pn ver) = some [] ∧
      findChain? st' (podFirewallChainName ns podName ver) =
        some [conntrackRule, localSourceRule ip,
          jumpRule pn (networkPolicyChainName ns pn ver),
          nflogRule ⟨ip, podName, ns, []⟩, rejectRule ⟨ip, podName, ns, []⟩] := by
  refine ⟨_, c2Assembled ns pn podName ip nodeIp ver hip, ?_, ?_⟩
  · simp [findChain?, List.find?_cons_of_neg, List.find?_cons_of_pos]
  · simp [findChain?, List.find?_cons_of_neg, List.find?_cons_of_pos]

/-- Witness for C2 at concrete inputs. -/
theorem c2_witness :
    (¬ ("10.1.0.5" : String) = "") ∧
    (∃ st', SyncModel noFailEnv [c2Policy "ns" "deny" "pod" "10.1.0.5"]
        [c2Pod "ns" "pod" "10.1.0.5" "192.168.1.1"] "192.168.1.1" "v1" baseState = .ok st' ∧
      findChain? st' (networkPolicyChainName "ns" "deny" "v1") = some [] ∧
      findChain? st' (podFirewallChainName "ns" "pod" "v1") =
        some [conntrackRule, localSourceRule "10.1.0.5",
          jumpRule "deny" (networkPolicyChainName "ns" "deny" "v1"),
          nflogRule ⟨"10.1.0.5", "pod", "ns", []⟩,
          rejectRule ⟨"10.1.0.5", "pod", "ns", []⟩]) :=
  ⟨by decide, c2_deny_all "ns" "deny" "pod" "10.1.0.5" "192.168.1.1" "v1" (by decide)⟩

/-- Counterexample to C2 as stated: after a successful reconcile of the
deny-all scenario the pod firewall chain does contain a jump rule into the
policy chain. -/
theorem c2_counterexample : c2JumpPresent = true := by decide

end Netpol
